import Mathlib

/-!
Verification development for the Ergun-coupled breakthrough solver
(`src/ergun_approach2/breakthrough.cpp` of RUPTURA-2.0).

The C++ code is shallowly embedded over exact rationals: every `double` is
modelled as a `ℚ` (exact arithmetic idealization of IEEE doubles), every
`std::vector<double>` as a total function `ℕ → ℚ` indexed exactly as the
source indexes the vector (per-node-per-component arrays keep the flattened
`i*Ncomp+j` layout of the source; reads beyond the allocated range model the
C++ out-of-bounds read by an unspecified-but-definite value of the function).
Division in `ℚ` is total with `x / 0 = 0`.  The two library calls `sqrt` and
`pow(x, 3./2.)` have no rational counterpart and are abstracted as function
parameters `sq` and `pw` of the configuration; concrete instances below
instantiate them with tables that are provably correct square roots on the
values actually consumed.  The IAST routine `predictMixture` is external to
the PDE core (the spec treats it as a black-box oracle), so it is a function
parameter `oracle` mapping a gas-phase composition row and a total pressure
to the per-component equilibrium loadings `Ni`.
-/

namespace Ruptura

/-- Gas constant, the exact value of the `double` literal in the source
(`const double R = 8.31446261815324 = 831446261815324 / 10^14`). -/
def R : ℚ := mkRat 831446261815324 100000000000000

/-- Sutherland reference viscosity for helium, hard-coded in
`computeVelocity` and `computeInitialPressure` (`mu0 = 0.0210`). -/
def mu0 : ℚ := 21 / 1000

/-- Sutherland reference temperature for helium (`T_mu0 = 323.15`). -/
def T_mu0 : ℚ := 6463 / 20

/-- Sutherland constant for helium (`S = 72.9`). -/
def S : ℚ := 729 / 10

/-- Hard-coded particle diameter (`par_diam = 0.005`). -/
def par_diam : ℚ := 1 / 200

/-- Hard-coded molar mass of helium (`M = 4.0026`). -/
def M : ℚ := 20013 / 5000

/-- Configuration of a breakthrough run: the immutable members of the
`Breakthrough` object plus the abstracted external operations. -/
structure BTParams where
  Ncomp : ℕ
  Ngrid : ℕ
  carrier : ℕ
  T : ℚ
  p_total : ℚ
  dptdx : ℚ
  epsilon : ℚ
  rho_p : ℚ
  v_in : ℚ
  L : ℚ
  dt : ℚ
  tpulse : ℚ
  pulse : Bool
  Kl : ℕ → ℚ
  Dax : ℕ → ℚ
  Yi0 : ℕ → ℚ
  oracle : (ℕ → ℚ) → ℚ → ℕ → ℚ
  sq : ℚ → ℚ
  pw : ℚ → ℚ

/-- Mutable state of the column: the committed arrays of the solver.
Per-node-per-component arrays (`Yi`, `P`, `Q`, `Qeq`) are flattened as in
the source (`i*Ncomp+j`); `V` and `Pt` are node-indexed. -/
structure BTState where
  Yi : ℕ → ℚ
  P : ℕ → ℚ
  Q : ℕ → ℚ
  Qeq : ℕ → ℚ
  V : ℕ → ℚ
  Pt : ℕ → ℚ

/-- The three derivative fields written by `computeFirstDerivatives`. -/
structure Derivs where
  dqdt : ℕ → ℚ
  dpdt : ℕ → ℚ
  dydt : ℕ → ℚ

/-- Grid spacing `dx = L / Ngrid` (constructor initializer list). -/
def dx (par : BTParams) : ℚ := par.L / (par.Ngrid : ℚ)

/-- `prefactor[j] = R * T * ((1-epsilon)/epsilon) * rho_p * Kl[j]`,
precomputed in `initialize`. -/
def prefactor (par : BTParams) (j : ℕ) : ℚ :=
  R * par.T * ((1 - par.epsilon) / par.epsilon) * par.rho_p * par.Kl j

/-- Accumulation `for (j = 0; j < m; ++j) acc += f j` starting from `0`,
as used by the per-component loops of the source. -/
def sumComp : ℕ → (ℕ → ℚ) → ℚ
  | 0, _ => 0
  | m + 1, f => sumComp m f + f m

/-- Accumulation `for (j = 0; j < m; ++j) acc = max acc (f j)` starting
from `0.0`, as used by the tolerance loop of `computeStep`. -/
def maxComp : ℕ → (ℕ → ℚ) → ℚ
  | 0, _ => 0
  | m + 1, f => max (maxComp m f) (f m)

/-- `Breakthrough::computeFirstDerivatives` (lines 633-695).  Arguments in
source order: `q_eq`, `q`, `v`, `p`, `y`.  `dqdt` and `dydt` are written at
every flattened index `n = i*Ncomp+j`; `dpdt` is written at node indices
only, and because the source assigns `dpdt[i]` inside the `j` loop, the
surviving value of its sorption term is the one of the last component
`j = Ncomp-1`.  The first-gridpoint block (lines 641-650) assigns `dpdt[0]`
by the same three-term formula as the interior block (lines 663-668), so
both are rendered by the single `i < Ngrid` branch; the outlet branch
(lines 683-694) reads `v[Ngrid+1]`, one past the allocated range, which the
embedding models as the value of the total function `v` there. -/
def computeFirstDerivatives (par : BTParams) (q_eq q v p y : ℕ → ℚ) : Derivs :=
  let Nc := par.Ncomp
  let Ng := par.Ngrid
  let idx : ℚ := 1 / dx par
  let idx2 : ℚ := 1 / (dx par * dx par)
  let lastJ := Nc - 1
  { dqdt := fun n => par.Kl (n % Nc) * (q_eq n - q n)
    dpdt := fun i =>
      if i < Ng then
        -(v i) * (p (i + 1) - p i) * idx - p i * (v (i + 1) - v i) * idx -
          prefactor par lastJ * (q_eq (i * Nc + lastJ) - q (i * Nc + lastJ))
      else
        -(p Ng) * (v (Ng + 1) - v Ng) * idx -
          prefactor par lastJ * (q_eq (Ng * Nc + lastJ) - q (Ng * Nc + lastJ))
    dydt := fun n =>
      let i := n / Nc
      let j := n % Nc
      if i = 0 then 0
      else if i < Ng then
        let sm : ℚ :=
          sumComp Nc (fun k => prefactor par k * (q_eq (i * Nc + k) - q (i * Nc + k)) *
            y (i * Nc + k)) / p i
        par.Dax j * (y ((i + 1) * Nc + j) - 2 * y (i * Nc + j) + y ((i - 1) * Nc + j) +
            (p i - p (i - 1)) * (y (i * Nc + j) - y ((i - 1) * Nc + j)) / p i) * idx2 -
          v i * (y (i * Nc + j) - y ((i - 1) * Nc + j)) * idx +
          sm - (q_eq (i * Nc + j) - q (i * Nc + j)) / p i
      else
        let sm : ℚ :=
          sumComp Nc (fun k => prefactor par k * (q_eq (Ng * Nc + k) - q (Ng * Nc + k))) /
            p Ng
        par.Dax j * (-(y (Ng * Nc + j)) + y ((Ng - 1) * Nc + j) +
            (p Ng - p (Ng - 1)) * (y (Ng * Nc + j) - y ((Ng - 1) * Nc + j)) / p Ng) * idx2 -
          v Ng * (y (Ng * Nc + j) - y ((Ng - 1) * Nc + j)) * idx +
          sm - (q_eq (Ng * Nc + j) - q (Ng * Nc + j)) / p Ng }

/-- `laminar_prefactor` of `computeVelocity`/`computeInitialPressure`
(lines 712-713, 762-763). -/
def laminar_prefactor (par : BTParams) : ℚ :=
  mu0 * par.v_in * (150 * (1 - par.epsilon) * (1 - par.epsilon)) /
    ((par.epsilon * par.epsilon) * (par_diam * par_diam))

/-- `turbulent_prefactor` of `computeVelocity`/`computeInitialPressure`
(lines 714-715, 764-765). -/
def turbulent_prefactor (par : BTParams) : ℚ :=
  par.v_in * |par.v_in| * (7 / 4 * (1 - par.epsilon) * M) / (par.epsilon * par_diam * R)

/-- `Breakthrough::computeVelocity` (lines 697-742) on a given node-indexed
total-pressure vector.  The middle-gridpoint loop (lines 721-731) and the
last-gridpoint block (lines 733-741) evaluate the identical formula, so both
are the single `i ≥ 1` branch.  `sqrt` is the abstract `par.sq`,
`pow(T/T_mu0, 3./2.)` the abstract `par.pw`. -/
def computeVelocity (par : BTParams) (Pt : ℕ → ℚ) : ℕ → ℚ := fun i =>
  if i = 0 then par.v_in
  else
    let term_a := laminar_prefactor par * Pt i / par.T
    let term_b := turbulent_prefactor par * par.pw (par.T / T_mu0) * (T_mu0 + S) / (par.T + S)
    let term_c := (Pt i - Pt (i - 1)) / dx par
    let D := term_b * term_b - 4 * term_a * term_c
    1 / (2 * term_a) * (-1 * term_b + par.sq D)

/-- The backward explicit-Euler recursion of
`Breakthrough::computeInitialPressure` (lines 744-779), by distance `k`
below the outlet: `ptInitAux 0` is the outlet value `p[Ngrid] = p_total`,
and each further step applies `p[i-1] = p[i] - f_p * dx` with
`f_p = -laminar_prefactor * pow(T/T_mu0,3/2) * (T_mu0+S)/(T+S)
      - turbulent_prefactor * (p[i]/T)`. -/
def ptInitAux (par : BTParams) : ℕ → ℚ
  | 0 => par.p_total
  | k + 1 =>
    let pv := ptInitAux par k
    let f_p := -(laminar_prefactor par) * par.pw (par.T / T_mu0) * (T_mu0 + S) / (par.T + S) -
      turbulent_prefactor par * (pv / par.T)
    pv - f_p * dx par

/-- The initial pressure profile written by `computeInitialPressure`:
node `i` holds the value after `Ngrid - i` backward Euler steps. -/
def computeInitialPressure (par : BTParams) (i : ℕ) : ℚ :=
  ptInitAux par (par.Ngrid - i)

/-- Partial pressures set by `Breakthrough::initialize` (lines 204-234):
zero-filled, then `P[i*Ncomp+carrier] = pt_init[i]` for `i ≥ 1`, then
`P[0*Ncomp+j] = p_total * Yi0[j]`. -/
def initP (par : BTParams) : ℕ → ℚ := fun n =>
  let i := n / par.Ncomp
  let j := n % par.Ncomp
  if i = 0 then par.p_total * par.Yi0 j
  else if j = par.carrier then computeInitialPressure par i
  else 0

/-- Raw mole fractions of `initialize` before normalization
(line 246: `Yi[i*Ncomp+j] = max(P[i*Ncomp+j] / pt_init[i], 0.0)`). -/
def initYiRaw (par : BTParams) : ℕ → ℚ := fun n =>
  max (initP par n / computeInitialPressure par (n / par.Ncomp)) 0

/-- Per-node normalizing sum of `initialize` (lines 243-248). -/
def initRowSum (par : BTParams) (i : ℕ) : ℚ :=
  sumComp par.Ncomp (fun j => initYiRaw par (i * par.Ncomp + j))

/-- `Breakthrough::initialize` (lines 196-277; named `initState` because
`initialize` is not available as an identifier here): `Q` zero-filled,
`V[i] = v_in * p_total / pt_init[i]`, partial pressures `initP`, mole
fractions normalized per node, `Qeq` from one `predictMixture` call per
node on the normalized row and `pt_init[i]`, and
`Pt[i] = Σ_j max(0, P[i*Ncomp+j])`. -/
def initState (par : BTParams) : BTState :=
  let Yi : ℕ → ℚ := fun n => initYiRaw par n / initRowSum par (n / par.Ncomp)
  { Yi := Yi
    P := initP par
    Q := fun _ => 0
    Qeq := fun n =>
      let i := n / par.Ncomp
      par.oracle (fun j => Yi (i * par.Ncomp + j)) (computeInitialPressure par i) (n % par.Ncomp)
    V := fun i => par.v_in * par.p_total / computeInitialPressure par i
    Pt := fun i => sumComp par.Ncomp (fun j => max 0 (initP par (i * par.Ncomp + j))) }

/-- The loadings written by `Breakthrough::computeEquilibriumLoadings`
(lines 605-623): one `predictMixture` call per node on the committed
members `Yi` and `Pt` (which do not change between the three stage calls of
a step, so all three calls produce this same array). -/
def eqLoadings (par : BTParams) (s : BTState) : ℕ → ℚ := fun n =>
  let i := n / par.Ncomp
  par.oracle (fun j => s.Yi (i * par.Ncomp + j)) (s.Pt i) (n % par.Ncomp)

/-- Stage-1 derivative call of `computeStep` (line 483):
`computeFirstDerivatives(Dqdt, Dpdt, Dydt, Qeq, Q, V, P, Yi)`.  Note that
the pressure argument is the flattened partial-pressure array `P`, not the
node-indexed total-pressure vector. -/
def stage1Derivs (par : BTParams) (s : BTState) : Derivs :=
  computeFirstDerivatives par s.Qeq s.Q s.V s.P s.Yi

/-- Stage-1 explicit-Euler update of `Pt` (line 490). -/
def stage1Pt (par : BTParams) (s : BTState) : ℕ → ℚ := fun i =>
  s.Pt i + par.dt * (stage1Derivs par s).dpdt i

/-- Stage-1 explicit-Euler update of `Q` (line 493). -/
def stage1Q (par : BTParams) (s : BTState) : ℕ → ℚ := fun n =>
  s.Q n + par.dt * (stage1Derivs par s).dqdt n

/-- Stage-1 explicit-Euler update of `Yi` (line 494). -/
def stage1Yi (par : BTParams) (s : BTState) : ℕ → ℚ := fun n =>
  s.Yi n + par.dt * (stage1Derivs par s).dydt n

/-- Stage-1 reconstruction `Pnew[i*Ncomp+j] = Yinew[i*Ncomp+j] * Ptnew[i]`
(line 495). -/
def stage1P (par : BTParams) (s : BTState) : ℕ → ℚ := fun n =>
  stage1Yi par s n * stage1Pt par s (n / par.Ncomp)

/-- The velocities written by `computeVelocity(T)` during a step: all three
calls read the committed member `Pt`, unchanged until the commit phase, so
they produce this same vector. -/
def stageV (par : BTParams) (s : BTState) : ℕ → ℚ := computeVelocity par s.Pt

/-- Stage-2 derivative call (line 517):
`computeFirstDerivatives(Dqdtnew, Dpdtnew, Dydtnew, Qeqnew, Qnew, Vnew, Ptnew, Yinew)`;
here the pressure argument is the node-indexed `Ptnew`. -/
def stage2Derivs (par : BTParams) (s : BTState) : Derivs :=
  computeFirstDerivatives par (eqLoadings par s) (stage1Q par s) (stageV par s)
    (stage1Pt par s) (stage1Yi par s)

/-- Stage-2 Shu-Osher update of `Pt` (line 521). -/
def stage2Pt (par : BTParams) (s : BTState) : ℕ → ℚ := fun i =>
  3 / 4 * s.Pt i + 1 / 4 * stage1Pt par s i + 1 / 4 * par.dt * (stage2Derivs par s).dpdt i

/-- Stage-2 Shu-Osher update of `Q` (line 524). -/
def stage2Q (par : BTParams) (s : BTState) : ℕ → ℚ := fun n =>
  3 / 4 * s.Q n + 1 / 4 * stage1Q par s n + 1 / 4 * par.dt * (stage2Derivs par s).dqdt n

/-- Stage-2 Shu-Osher update of `Yi` (line 525). -/
def stage2Yi (par : BTParams) (s : BTState) : ℕ → ℚ := fun n =>
  3 / 4 * s.Yi n + 1 / 4 * stage1Yi par s n + 1 / 4 * par.dt * (stage2Derivs par s).dydt n

/-- Stage-2 reconstruction (line 526). -/
def stage2P (par : BTParams) (s : BTState) : ℕ → ℚ := fun n =>
  stage2Yi par s n * stage2Pt par s (n / par.Ncomp)

/-- Stage-3 derivative call (line 548), on the stage-2 buffers. -/
def stage3Derivs (par : BTParams) (s : BTState) : Derivs :=
  computeFirstDerivatives par (eqLoadings par s) (stage2Q par s) (stageV par s)
    (stage2Pt par s) (stage2Yi par s)

/-- Stage-3 Shu-Osher update of `Pt` (lines 552-553). -/
def stage3Pt (par : BTParams) (s : BTState) : ℕ → ℚ := fun i =>
  1 / 3 * s.Pt i + 2 / 3 * stage2Pt par s i + 2 / 3 * par.dt * (stage3Derivs par s).dpdt i

/-- Stage-3 Shu-Osher update of `Q` (lines 556-557). -/
def stage3Q (par : BTParams) (s : BTState) : ℕ → ℚ := fun n =>
  1 / 3 * s.Q n + 2 / 3 * stage2Q par s n + 2 / 3 * par.dt * (stage3Derivs par s).dqdt n

/-- Stage-3 Shu-Osher update of `Yi` (lines 558-559). -/
def stage3Yi (par : BTParams) (s : BTState) : ℕ → ℚ := fun n =>
  1 / 3 * s.Yi n + 2 / 3 * stage2Yi par s n + 2 / 3 * par.dt * (stage3Derivs par s).dydt n

/-- Stage-3 reconstruction (line 560). -/
def stage3P (par : BTParams) (s : BTState) : ℕ → ℚ := fun n =>
  stage3Yi par s n * stage3Pt par s (n / par.Ncomp)

/-- Commit phase of `computeStep` (lines 578-583): the six `std::copy`
calls moving the stage-3 buffers, `Qeqnew` and `Vnew` into the members. -/
def commitState (par : BTParams) (s : BTState) : BTState :=
  { Yi := stage3Yi par s
    P := stage3P par s
    Q := stage3Q par s
    Qeq := eqLoadings par s
    V := stageV par s
    Pt := stage3Pt par s }

/-- Pulse boundary enforcement of `computeStep` (lines 585-602): when
`pulse` and `t > tpulse`, overwrite the inlet row of `P` with pure carrier
at `p_total`; nothing else is touched. -/
def pulseApply (par : BTParams) (t : ℚ) (s : BTState) : BTState :=
  if par.pulse = true ∧ par.tpulse < t then
    { s with P := fun n =>
        if n < par.Ncomp then (if n = par.carrier then par.p_total else 0) else s.P n }
  else s

/-- The `tolerance` fold of the auto-stop logic (lines 462-467):
`max_j |P[Ngrid*Ncomp+j] / ((p_total + dptdx*L) * Yi0[j]) - 1|`, folded
from `0.0`. -/
def toleranceOf (par : BTParams) (P : ℕ → ℚ) : ℚ :=
  maxComp par.Ncomp (fun j =>
    |P (par.Ngrid * par.Ncomp + j) / ((par.p_total + par.dptdx * par.L) * par.Yi0 j) - 1|)

/-- Auto-stop logic at the head of `computeStep` (lines 460-477): when
`autoSteps`, if the tolerance is below `0.01`, truncate `1.1 * step` into
`Nsteps` (`static_cast<size_t>` truncates towards zero; the
exact-arithmetic `⌊11/10 * step⌋` agrees with the double computation for
every step index reachable in practice) and clear `autoSteps`. -/
def autoRule (par : BTParams) (P : ℕ → ℚ) (Nsteps : ℕ) (auto : Bool) (step : ℕ) : ℕ × Bool :=
  if auto = true then
    if toleranceOf par P < 1 / 100 then (((11 : ℚ) / 10 * (step : ℚ)).floor.toNat, false)
    else (Nsteps, auto)
  else (Nsteps, auto)

/-- Exception text of `computeEquilibriumLoadings` (line 628). -/
def errMsg : String := "Error: pressure gradient is too large (negative outlet pressure)\n"

/-- `Breakthrough::computeStep` (lines 454-603).  The auto-stop update runs
first; each of the three `computeEquilibriumLoadings` calls checks
`Pt[0] + dptdx * L < 0.0` on the committed member `Pt`, which is unchanged
until the commit phase, so the step throws iff the check fails at entry,
and otherwise the three stages, commit and pulse enforcement complete. -/
def computeStep (par : BTParams) (s : BTState) (step Nsteps : ℕ) (auto : Bool) :
    Except String (BTState × ℕ × Bool) :=
  let na := autoRule par s.P Nsteps auto step
  let t : ℚ := (step : ℚ) * par.dt
  if s.Pt 0 + par.dptdx * par.L < 0 then Except.error errMsg
  else Except.ok (pulseApply par t (commitState par s), na.1, na.2)

/-- `true` iff a step result is not the thrown exception. -/
def stepOk {α : Type} : Except String α → Bool
  | Except.ok _ => true
  | Except.error _ => false

end Ruptura

namespace Ruptura

/-! ### Definitions following the specification's words (for comparison) -/

/-- Sign function, for the claim's weighting `|v_in|*sign(v_in)`. -/
def sgn (x : ℚ) : ℚ := if 0 < x then 1 else if x < 0 then -1 else 0

/-- Follows the claim's words (C2): the quadratic coefficient
`a = 1.75*(1-epsilon)*M/(epsilon*d_p*R)` weighted by `|v_in|*sign(v_in)`. -/
def claimErgunA (par : BTParams) : ℚ :=
  7 / 4 * (1 - par.epsilon) * M / (par.epsilon * par_diam * R) * (|par.v_in| * sgn par.v_in)

/-- Follows the claim's words (C2): the linear coefficient
`b = 150*mu*(1-epsilon)^2/(epsilon^2*d_p^2)` with `mu` from Sutherland's law
`mu0*(T/T_mu0)^(3/2)*(T_mu0+S)/(T+S)`. -/
def claimErgunB (par : BTParams) : ℚ :=
  150 * (mu0 * par.pw (par.T / T_mu0) * (T_mu0 + S) / (par.T + S)) *
    ((1 - par.epsilon) * (1 - par.epsilon)) / (par.epsilon * par.epsilon * (par_diam * par_diam))

/-- Follows the claim's words (C2): `c = (Pt[i]-Pt[i-1])/dx`. -/
def claimErgunC (par : BTParams) (Pt : ℕ → ℚ) (i : ℕ) : ℚ := (Pt i - Pt (i - 1)) / dx par

/-- Follows the claim's words (C5): the inlet total-pressure derivative with
the convective term omitted, so only the velocity-divergence term and the
sorption-sink term (the surviving last-component one) remain. -/
def specInletDpdt (par : BTParams) (q_eq q v p : ℕ → ℚ) : ℚ :=
  -(p 0) * (v 1 - v 0) * (1 / dx par) -
    prefactor par (par.Ncomp - 1) * (q_eq (par.Ncomp - 1) - q (par.Ncomp - 1))

end Ruptura

namespace Ruptura

/-! ### Concrete instances used by witnesses and counterexamples -/

/-- A minimal single-component configuration (witness instance for C1). -/
def par1w : BTParams :=
  { Ncomp := 1, Ngrid := 2, carrier := 0, T := T_mu0, p_total := 1, dptdx := 0
    epsilon := 1 / 2, rho_p := 1, v_in := 1, L := 2, dt := 1, tpulse := 0, pulse := false
    Kl := fun _ => 0, Dax := fun _ => 0, Yi0 := fun _ => 1
    oracle := fun _ _ _ => 0, sq := fun _ => 0, pw := fun _ => 1 }

/-- A concrete committed state for the C1 witness. -/
def s1w : BTState :=
  { Yi := fun _ => 1, P := fun _ => 1, Q := fun _ => 0, Qeq := fun _ => 0
    V := fun _ => 1, Pt := fun _ => 1 }

/-- The exact value of the code's `turbulent_prefactor` for
`epsilon = 1/2`, `v_in = 1` (`= 350 * M / R`). -/
def c2b : ℚ := mkRat 35022750000000000 207861565453831

/-- Configuration for the C2 evaluation: `T = T_mu0` (so the Sutherland
factor is exactly `1` and `pow(T/T_mu0, 3/2) = pow(1, 3/2) = 1`),
`epsilon = 1/2`, `v_in = 1`, `dx = L/Ngrid = 1`.  `sq` is the exact
nonnegative square root at the one discriminant the evaluation consumes. -/
def par2c : BTParams :=
  { Ncomp := 1, Ngrid := 2, carrier := 0, T := T_mu0, p_total := 1, dptdx := 0
    epsilon := 1 / 2, rho_p := 1, v_in := 1, L := 2, dt := 1, tpulse := 0, pulse := false
    Kl := fun _ => 0, Dax := fun _ => 0, Yi0 := fun _ => 1
    oracle := fun _ _ _ => 0
    sq := fun x => if x.num = 10982463971990920714052878327718976000000 ∧
        x.den = 43206430392917269016992576561 then c2b + 504000 else 0
    pw := fun x => if x = 1 then 1 else 0 }

/-- Total-pressure vector for the C2 evaluation: `Pt 1 = 2*T_mu0` makes the
code's quadratic coefficient `term_a = 252000`, and `Pt 0` is chosen so that
`term_c = -(term_a + term_b)`, making the code's discriminant the perfect
square `(term_b + 2*term_a)^2` and the code's root exactly `1`. -/
def pt2v : ℕ → ℚ := fun i => if i = 0 then 2 * T_mu0 + 252000 + c2b else 2 * T_mu0

/-- `alpha`: the exact value of `laminar_prefactor` for `epsilon = 999/1000`,
`v_in = 1`. -/
def c3alpha : ℚ := 14000 / 110889

/-- `beta`: the exact value of `turbulent_prefactor` for `epsilon = 999/1000`,
`v_in = 1`. -/
def c3beta : ℚ := 11674250000000000 / 69217901296125723

/-- Rational point on the conic `s^2 = 4*alpha*beta*w^2 + 4*alpha^2*w + beta^2`
(slope `-10` through `(0, beta)`): with `p_total = w*T` the code's velocity
discriminant at node 2 of the initial state is the perfect square
`(beta - 10*w)^2`. -/
def c3w : ℚ := (4 * c3alpha ^ 2 + 20 * c3beta) / (100 - 4 * c3alpha * c3beta)

/-- Chosen square root for the node-1 discriminant of the C3 run. -/
def c3t : ℚ := 4 / 25

/-- `g = alpha + beta*w`, the magnitude of the Ergun slope `f_p` at the
outlet pressure of the C3 run. -/
def c3g : ℚ := c3alpha + c3beta * c3w

/-- Grid spacing chosen so that the code's velocity discriminant at node 1
of the initial state is exactly `c3t^2`. -/
def c3dx : ℚ := T_mu0 * ((c3beta ^ 2 - c3t ^ 2) / (4 * c3alpha * c3g) - c3w) / c3g

/-- Nonnegative square root of the node-2 discriminant of the C3 run. -/
def c3s2 : ℚ := -(c3beta - 10 * c3w)

/-- The value of `c3w * T_mu0`, the total pressure of the C3 run. -/
def c3ptot : ℚ := mkRat 28387561627346786523176000 2553765770183086404149751

/-- The value of `2 * c3dx`, the column length of the C3 run. -/
def c3len : ℚ :=
  mkRat 39267789067719154400553527754025088201655125608848650500006811279077598283720257
    969334302532963700290660656412766320222579359835294496004155054587500000000000

/-- The value of `c3s2`, the nonnegative square root of the node-2
discriminant. -/
def c3s2v : ℚ :=
  mkRat 31023152128890546726051710917460800000 176943250264221583248250007700666882027

/-- The value of `c3t ^ 2`, the node-1 discriminant of the C3 run. -/
def c3D1v : ℚ := mkRat 16 625

/-- The value of `c3s2 ^ 2`, the node-2 discriminant of the C3 run. -/
def c3D2v : ℚ :=
  mkRat 962435968012286061503582210645411120805653817365666237670319536640000000000
    31308913814066951389994871404373959636940789273077543708675927947437935628729

/-- Configuration for the C3 counterexample: two components, the carrier is
component 0 (`Kl = 0`), component 1 adsorbs (`Kl = 1`) with a constant
black-box equilibrium loading of `1 mol/kg`; no axial dispersion; inlet
feed `Yi0 = (1/2, 1/2)`; `T = T_mu0` so `pw` is consumed only at `1`;
`sq` is the exact nonnegative square root at the two discriminants the
step consumes (certified inside the counterexample theorem, together with
`c3ptot = c3w * T_mu0` and `c3len = 2 * c3dx`). -/
def par3c : BTParams :=
  { Ncomp := 2, Ngrid := 2, carrier := 0, T := T_mu0, p_total := c3ptot, dptdx := 0
    epsilon := 999 / 1000, rho_p := 1, v_in := 1, L := c3len, dt := 1 / 10
    tpulse := 0, pulse := false
    Kl := fun j => if j = 1 then 1 else 0, Dax := fun _ => 0, Yi0 := fun _ => 1 / 2
    oracle := fun _ _ j => if j = 1 then 1 else 0
    sq := fun x => if x.num = 16 ∧ x.den = 625 then c3t else
      if x.num = 962435968012286061503582210645411120805653817365666237670319536640000000000 ∧
          x.den = 31308913814066951389994871404373959636940789273077543708675927947437935628729
        then c3s2v else 0
    pw := fun x => if x = 1 then 1 else 0 }

/-- The discriminant `term_b^2 - 4*term_a*term_c` that `computeVelocity`
forms at node `i` of the initial state of the C3 configuration. -/
def c3D (i : ℕ) : ℚ :=
  let Pt := (initState par3c).Pt
  let term_a := laminar_prefactor par3c * Pt i / par3c.T
  let term_b := turbulent_prefactor par3c * par3c.pw (par3c.T / T_mu0) * (T_mu0 + S) /
    (par3c.T + S)
  let term_c := (Pt i - Pt (i - 1)) / dx par3c
  term_b * term_b - 4 * term_a * term_c

/-- Two-component witness configuration for the amended C3 theorem. -/
def par3w : BTParams :=
  { Ncomp := 2, Ngrid := 2, carrier := 1, T := T_mu0, p_total := 1, dptdx := 0
    epsilon := 1 / 2, rho_p := 1, v_in := 1, L := 2, dt := 1, tpulse := 0, pulse := false
    Kl := fun _ => 0, Dax := fun _ => 0, Yi0 := fun _ => 1 / 2
    oracle := fun _ _ _ => 0, sq := fun _ => 0, pw := fun x => if x = 1 then 1 else 0 }

/-- A concrete committed state for the C3 witness. -/
def s3w : BTState :=
  { Yi := fun n => if n = 0 then 2 / 7 else 1, P := fun _ => 1, Q := fun _ => 0
    Qeq := fun _ => 0, V := fun _ => 1, Pt := fun _ => 1 }

/-- Configuration for the C4 instances (`p_total + dptdx*L = 10`). -/
def par4c : BTParams :=
  { Ncomp := 2, Ngrid := 2, carrier := 0, T := T_mu0, p_total := 10, dptdx := 0
    epsilon := 1 / 2, rho_p := 1, v_in := 1, L := 2, dt := 1, tpulse := 0, pulse := false
    Kl := fun _ => 0, Dax := fun _ => 0, Yi0 := fun _ => 1 / 2
    oracle := fun _ _ _ => 0, sq := fun _ => 0, pw := fun _ => 1 }

/-- State for the C4 counterexample: the outlet row of `P` equals
`(p_total + dptdx*L) * Yi0[j]` exactly, so the tolerance is `0 < 0.01`. -/
def s4c : BTState :=
  { Yi := fun _ => 1 / 2, P := fun n => if 4 ≤ n then 5 else 1, Q := fun _ => 0
    Qeq := fun _ => 0, V := fun _ => 1, Pt := fun _ => 10 }

/-- State for the C4 witness of the amended rule (same outlet row, reached
at a step index where floor and ceiling differ). -/
def s4w : BTState :=
  { Yi := fun _ => 1 / 2, P := fun n => if 4 ≤ n then 5 else 2, Q := fun _ => 0
    Qeq := fun _ => 0, V := fun _ => 1, Pt := fun _ => 10 }

/-- Pulse configuration for the C6 witness (`tpulse = 2`). -/
def par6w : BTParams :=
  { Ncomp := 2, Ngrid := 2, carrier := 1, T := T_mu0, p_total := 3, dptdx := 0
    epsilon := 1 / 2, rho_p := 1, v_in := 1, L := 2, dt := 1, tpulse := 2, pulse := true
    Kl := fun _ => 0, Dax := fun _ => 0, Yi0 := fun _ => 1 / 2
    oracle := fun _ _ _ => 0, sq := fun _ => 0, pw := fun _ => 1 }

/-- A concrete committed state for the C6 witness. -/
def s6w : BTState :=
  { Yi := fun _ => 1 / 2, P := fun _ => 1, Q := fun _ => 0, Qeq := fun _ => 0
    V := fun _ => 1, Pt := fun _ => 3 }

/-- Configuration for the C7 instances: `epsilon = 1/2`, `v_in = 1` give a
strictly positive Ergun slope, so `pt_init[1] = p_total + (126000 + ...)`
differs from `p_total`.  `T = T_mu0` so `pw` is consumed only at `1`. -/
def par7c : BTParams :=
  { Ncomp := 2, Ngrid := 2, carrier := 1, T := T_mu0, p_total := 100000, dptdx := 0
    epsilon := 1 / 2, rho_p := 1, v_in := 1, L := 2, dt := 1, tpulse := 0, pulse := false
    Kl := fun _ => 0, Dax := fun _ => 0, Yi0 := fun j => if j = 0 then 1 / 4 else 3 / 4
    oracle := fun y pt j => if j = 0 then y 0 * pt / (1 + y 0 * pt) else 0
    sq := fun _ => 0, pw := fun x => if x = 1 then 1 else 0 }

/-- Configuration for the C8 instances. -/
def par8c : BTParams :=
  { Ncomp := 1, Ngrid := 2, carrier := 0, T := T_mu0, p_total := 5, dptdx := 0
    epsilon := 1 / 2, rho_p := 1, v_in := 1, L := 2, dt := 1, tpulse := 0, pulse := false
    Kl := fun _ => 0, Dax := fun _ => 0, Yi0 := fun _ => 1
    oracle := fun _ _ _ => 0, sq := fun _ => 0, pw := fun _ => 1 }

/-- State for the C8 counterexample: the actual outlet total pressure
`Pt[Ngrid] = -5` is negative, while the quantity the code checks,
`Pt[0] + dptdx*L = 5`, is not. -/
def s8c : BTState :=
  { Yi := fun _ => 1, P := fun _ => 1, Q := fun _ => 0, Qeq := fun _ => 0
    V := fun _ => 1, Pt := fun i => if i = 0 then 5 else -5 }

/-- Single-component configuration for the C9 evaluation (`Ngrid = 2`, so
the allocated velocity indices are `0..2` and the outlet stencil reads
index `3`). -/
def par9c : BTParams :=
  { Ncomp := 1, Ngrid := 2, carrier := 0, T := T_mu0, p_total := 5, dptdx := 0
    epsilon := 1 / 2, rho_p := 1, v_in := 1, L := 2, dt := 1, tpulse := 0, pulse := false
    Kl := fun _ => 0, Dax := fun _ => 0, Yi0 := fun _ => 1
    oracle := fun _ _ _ => 0, sq := fun _ => 0, pw := fun _ => 1 }

/-- Two-component configuration for the C10 evaluation. -/
def par10c : BTParams :=
  { Ncomp := 2, Ngrid := 2, carrier := 0, T := T_mu0, p_total := 5, dptdx := 0
    epsilon := 1 / 2, rho_p := 1, v_in := 1, L := 2, dt := 1, tpulse := 0, pulse := false
    Kl := fun _ => 0, Dax := fun _ => 0, Yi0 := fun _ => 1 / 2
    oracle := fun _ _ _ => 0, sq := fun _ => 0, pw := fun _ => 1 }

/-- State for the C10 evaluation: the flattened partial-pressure array `P`
(`P n = 10 + n`) and the node-indexed total-pressure vector `Pt`
(`Pt i = 100 * (i+1)`) disagree wherever both are read as `p`. -/
def s10c : BTState :=
  { Yi := fun _ => 1 / 2, P := fun n => 10 + n, Q := fun _ => 0, Qeq := fun _ => 0
    V := fun _ => 1, Pt := fun i => 100 * (i + 1) }

/-- Single-component configuration for the C5 instances (`dx = 1`). -/
def par5c : BTParams :=
  { Ncomp := 1, Ngrid := 2, carrier := 0, T := T_mu0, p_total := 5, dptdx := 0
    epsilon := 1 / 2, rho_p := 1, v_in := 1, L := 2, dt := 1, tpulse := 0, pulse := false
    Kl := fun _ => 0, Dax := fun _ => 0, Yi0 := fun _ => 1
    oracle := fun _ _ _ => 0, sq := fun _ => 0, pw := fun _ => 1 }

/-- The all-zero array. -/
def zArr : ℕ → ℚ := fun _ => 0

/-- Velocity vector for the C5/C9 evaluations: `1` at the inlet, `2` above. -/
def v5c : ℕ → ℚ := fun i => if i = 0 then 1 else 2

/-- Pressure vector for the C5 evaluation: `1` at the inlet, `3` above. -/
def p5c : ℕ → ℚ := fun i => if i = 0 then 1 else 3

/-- First velocity vector for the C9 evaluation: differs from `v9b` only at
index `3 = Ngrid + 1`, one past the allocated range `0..Ngrid`. -/
def v9a : ℕ → ℚ := fun i => if i = 3 then 10 else 1

/-- Second velocity vector for the C9 evaluation. -/
def v9b : ℕ → ℚ := fun i => if i = 3 then 20 else 1

/-- Pressure vector for the C9 evaluation. -/
def p9c : ℕ → ℚ := fun _ => 5

end Ruptura

namespace Ruptura

/-! ### Projection lemmas for `computeFirstDerivatives` -/

theorem dqdt_eval (par : BTParams) (q_eq q v p y : ℕ → ℚ) (n : ℕ) :
    (computeFirstDerivatives par q_eq q v p y).dqdt n =
      par.Kl (n % par.Ncomp) * (q_eq n - q n) := rfl

theorem dpdt_interior (par : BTParams) (q_eq q v p y : ℕ → ℚ) (i : ℕ)
    (h : i < par.Ngrid) :
    (computeFirstDerivatives par q_eq q v p y).dpdt i =
      -(v i) * (p (i + 1) - p i) * (1 / dx par) -
        p i * (v (i + 1) - v i) * (1 / dx par) -
        prefactor par (par.Ncomp - 1) *
          (q_eq (i * par.Ncomp + (par.Ncomp - 1)) - q (i * par.Ncomp + (par.Ncomp - 1))) := by
  simp only [computeFirstDerivatives]
  rw [if_pos h]

theorem dpdt_outlet (par : BTParams) (q_eq q v p y : ℕ → ℚ) (i : ℕ)
    (h : ¬ i < par.Ngrid) :
    (computeFirstDerivatives par q_eq q v p y).dpdt i =
      -(p par.Ngrid) * (v (par.Ngrid + 1) - v par.Ngrid) * (1 / dx par) -
        prefactor par (par.Ncomp - 1) *
          (q_eq (par.Ngrid * par.Ncomp + (par.Ncomp - 1)) -
            q (par.Ngrid * par.Ncomp + (par.Ncomp - 1))) := by
  simp only [computeFirstDerivatives]
  rw [if_neg h]

theorem dydt_node0 (par : BTParams) (q_eq q v p y : ℕ → ℚ) (n : ℕ)
    (h : n / par.Ncomp = 0) :
    (computeFirstDerivatives par q_eq q v p y).dydt n = 0 := by
  simp only [computeFirstDerivatives]
  rw [if_pos h]

theorem dydt_interior (par : BTParams) (q_eq q v p y : ℕ → ℚ) (n : ℕ)
    (h0 : ¬ n / par.Ncomp = 0) (h1 : n / par.Ncomp < par.Ngrid) :
    (computeFirstDerivatives par q_eq q v p y).dydt n =
      (fun i j =>
        par.Dax j * (y ((i + 1) * par.Ncomp + j) - 2 * y (i * par.Ncomp + j) +
            y ((i - 1) * par.Ncomp + j) +
            (p i - p (i - 1)) * (y (i * par.Ncomp + j) - y ((i - 1) * par.Ncomp + j)) / p i) *
          (1 / (dx par * dx par)) -
          v i * (y (i * par.Ncomp + j) - y ((i - 1) * par.Ncomp + j)) * (1 / dx par) +
          sumComp par.Ncomp (fun k =>
            prefactor par k * (q_eq (i * par.Ncomp + k) - q (i * par.Ncomp + k)) *
              y (i * par.Ncomp + k)) / p i -
          (q_eq (i * par.Ncomp + j) - q (i * par.Ncomp + j)) / p i)
        (n / par.Ncomp) (n % par.Ncomp) := by
  simp only [computeFirstDerivatives]
  rw [if_neg h0, if_pos h1]

theorem dydt_outlet (par : BTParams) (q_eq q v p y : ℕ → ℚ) (n : ℕ)
    (h0 : ¬ n / par.Ncomp = 0) (h1 : ¬ n / par.Ncomp < par.Ngrid) :
    (computeFirstDerivatives par q_eq q v p y).dydt n =
      (fun j =>
        par.Dax j * (-(y (par.Ngrid * par.Ncomp + j)) + y ((par.Ngrid - 1) * par.Ncomp + j) +
            (p par.Ngrid - p (par.Ngrid - 1)) *
              (y (par.Ngrid * par.Ncomp + j) - y ((par.Ngrid - 1) * par.Ncomp + j)) /
              p par.Ngrid) *
          (1 / (dx par * dx par)) -
          v par.Ngrid * (y (par.Ngrid * par.Ncomp + j) - y ((par.Ngrid - 1) * par.Ncomp + j)) *
            (1 / dx par) +
          sumComp par.Ncomp (fun k =>
            prefactor par k *
              (q_eq (par.Ngrid * par.Ncomp + k) - q (par.Ngrid * par.Ncomp + k))) /
            p par.Ngrid -
          (q_eq (par.Ngrid * par.Ncomp + j) - q (par.Ngrid * par.Ncomp + j)) / p par.Ngrid)
        (n % par.Ncomp) := by
  simp only [computeFirstDerivatives]
  rw [if_neg h0, if_neg h1]

end Ruptura

namespace Ruptura

theorem computeVelocity_ge1 (par : BTParams) (Pt : ℕ → ℚ) (i : ℕ) (h : ¬ i = 0) :
    computeVelocity par Pt i =
      1 / (2 * (laminar_prefactor par * Pt i / par.T)) *
        (-1 * (turbulent_prefactor par * par.pw (par.T / T_mu0) * (T_mu0 + S) / (par.T + S)) +
          par.sq ((turbulent_prefactor par * par.pw (par.T / T_mu0) * (T_mu0 + S) / (par.T + S)) *
              (turbulent_prefactor par * par.pw (par.T / T_mu0) * (T_mu0 + S) / (par.T + S)) -
            4 * (laminar_prefactor par * Pt i / par.T) * ((Pt i - Pt (i - 1)) / dx par))) := by
  simp only [computeVelocity]
  rw [if_neg h]

end Ruptura



namespace Ruptura

set_option maxRecDepth 2000 in
/-- Claim C3 (counterexample): for the admissible configuration `par3c`
(two components, carrier component 0, constant black-box loading `1` for
component 1, no axial dispersion, `dt = 0.1`), `initialize` establishes
exact mole-fraction closure, the step completes without the
pressure-gradient error, the abstract `sq` is certified to be the exact
nonnegative square root at both discriminants `computeVelocity` consumes
during the step, `pw` is consumed only at `1`, and the literal parameters
are certified against their engineering construction — yet after the
commit of the very first `computeStep` the node-1 mole fractions sum to
about `0.99095`, violating `|Σ_j Y[1,j] - 1| < 10⁻⁸`. -/
theorem C3_closure_violated :
    sumComp par3c.Ncomp (fun j => (initState par3c).Yi (1 * par3c.Ncomp + j)) = 1 ∧
    par3c.pulse = false ∧
    ¬((initState par3c).Pt 0 + par3c.dptdx * par3c.L < 0) ∧
    (par3c.p_total = c3w * T_mu0 ∧ par3c.L = 2 * c3dx ∧
      c3D1v = c3t ^ 2 ∧ c3D2v = c3s2 ^ 2 ∧ c3s2v = c3s2) ∧
    (par3c.sq (c3D 1) * par3c.sq (c3D 1) = c3D 1 ∧ 0 ≤ par3c.sq (c3D 1)) ∧
    (par3c.sq (c3D 2) * par3c.sq (c3D 2) = c3D 2 ∧ 0 ≤ par3c.sq (c3D 2)) ∧
    par3c.pw (par3c.T / T_mu0) = 1 ∧
    ¬(|sumComp par3c.Ncomp
        (fun j => (commitState par3c (initState par3c)).Yi (1 * par3c.Ncomp + j)) - 1| <
      1 / 100000000) := by
  have hNc : par3c.Ncomp = 2 := rfl
  have hNg : par3c.Ngrid = 2 := rfl
  have hcar : par3c.carrier = 0 := rfl
  have hpw : par3c.pw (par3c.T / T_mu0) = 1 := by with_unfolding_all rfl
  have hlam : laminar_prefactor par3c = mkRat 14000 110889 := by with_unfolding_all rfl
  have hturb : turbulent_prefactor par3c = mkRat 11674250000000000 69217901296125723 := by with_unfolding_all rfl
  have hptot : par3c.p_total = mkRat 28387561627346786523176000 2553765770183086404149751 := by with_unfolding_all rfl
  have hdxl : dx par3c = mkRat 39267789067719154400553527754025088201655125608848650500006811279077598283720257 1938668605065927400581321312825532640445158719670588992008310109175000000000000 := by with_unfolding_all rfl
  have hdt : par3c.dt = mkRat 1 10 := by with_unfolding_all rfl
  have hpre0 : prefactor par3c 0 = (0 : ℚ) := by with_unfolding_all rfl
  have hpre1 : prefactor par3c 1 = mkRat 1343409297528109753 499500000000000000 := by with_unfolding_all rfl
  have hA0 : ptInitAux par3c 0 = mkRat 28387561627346786523176000 2553765770183086404149751 := by
    simp only [ptInitAux]
    rw [hptot]
  have hA1 : ptInitAux par3c 1 = mkRat 26399880084319818095600802623194191993324081268462449778331 1914322091136319659153307778513819744464874394337500000000 := by
    simp only [ptInitAux]
    rw [hptot, hlam, hturb, hpw, hdxl]
    all_goals with_unfolding_all rfl
  have hA2 : ptInitAux par3c 2 = mkRat 17293801703746709611573196486926515372291559393483130737720404836326200245839730680777712303744449443721312116993733890115139490359311579267 1048506027312463780459898972258087286904707130778375539932901561955721916458670482394322250778151267151428223368913035310349976437500000000 := by
    simp only [ptInitAux]
    rw [hptot, hlam, hturb, hpw, hdxl]
    all_goals with_unfolding_all rfl
  have hC0 : computeInitialPressure par3c 0 = mkRat 17293801703746709611573196486926515372291559393483130737720404836326200245839730680777712303744449443721312116993733890115139490359311579267 1048506027312463780459898972258087286904707130778375539932901561955721916458670482394322250778151267151428223368913035310349976437500000000 := by
    simp only [computeInitialPressure, hNg]
    show ptInitAux par3c 2 = _
    exact hA2
  have hC1 : computeInitialPressure par3c 1 = mkRat 26399880084319818095600802623194191993324081268462449778331 1914322091136319659153307778513819744464874394337500000000 := by
    simp only [computeInitialPressure, hNg]
    show ptInitAux par3c 1 = _
    exact hA1
  have hC2 : computeInitialPressure par3c 2 = mkRat 28387561627346786523176000 2553765770183086404149751 := by
    simp only [computeInitialPressure, hNg]
    show ptInitAux par3c 0 = _
    exact hA0
  have hC3 : computeInitialPressure par3c 3 = mkRat 28387561627346786523176000 2553765770183086404149751 := by
    simp only [computeInitialPressure, hNg]
    show ptInitAux par3c 0 = _
    exact hA0
  have aP0 : initP par3c 0 = mkRat 14193780813673393261588000 2553765770183086404149751 := by
    simp only [initP, hNc, hcar]
    norm_num [hC1, hC2, hptot]
    all_goals with_unfolding_all rfl
  have aP1 : initP par3c 1 = mkRat 14193780813673393261588000 2553765770183086404149751 := by
    simp only [initP, hNc, hcar]
    norm_num [hC1, hC2, hptot]
    all_goals with_unfolding_all rfl
  have aP2 : initP par3c 2 = mkRat 26399880084319818095600802623194191993324081268462449778331 1914322091136319659153307778513819744464874394337500000000 := by
    simp only [initP, hNc, hcar]
    norm_num [hC1, hC2, hptot]
    all_goals with_unfolding_all rfl
  have aP3 : initP par3c 3 = (0 : ℚ) := by
    simp only [initP, hNc, hcar]
    norm_num [hC1, hC2, hptot]
    all_goals with_unfolding_all rfl
  have aP4 : initP par3c 4 = mkRat 28387561627346786523176000 2553765770183086404149751 := by
    simp only [initP, hNc, hcar]
    norm_num [hC1, hC2, hptot]
    all_goals with_unfolding_all rfl
  have aP5 : initP par3c 5 = (0 : ℚ) := by
    simp only [initP, hNc, hcar]
    norm_num [hC1, hC2, hptot]
    all_goals with_unfolding_all rfl
  have ir0 : initYiRaw par3c 0 = mkRat 6914975349861028871843733696631770298156938042637506986989885629178889681050028477120733748436143911491469638536706955360360614097412518259172250000000000000 20520746103071486026108166433345058334718672237707224075156619618403901874334165530482508993860281414829946060561692765970537222303951293513977029500963095623 := by
    simp only [initYiRaw, hNc]
    norm_num [aP0, hC0]
    all_goals with_unfolding_all rfl
  have ir1 : initYiRaw par3c 1 = mkRat 6914975349861028871843733696631770298156938042637506986989885629178889681050028477120733748436143911491469638536706955360360614097412518259172250000000000000 20520746103071486026108166433345058334718672237707224075156619618403901874334165530482508993860281414829946060561692765970537222303951293513977029500963095623 := by
    simp only [initYiRaw, hNc]
    norm_num [aP1, hC0]
    all_goals with_unfolding_all rfl
  have ir2 : initYiRaw par3c 2 = (1 : ℚ) := by
    simp only [initYiRaw, hNc]
    norm_num [aP2, hC1]
    all_goals with_unfolding_all rfl
  have ir3 : initYiRaw par3c 3 = (0 : ℚ) := by
    simp only [initYiRaw, hNc]
    norm_num [aP3, hC1]
    all_goals with_unfolding_all rfl
  have ir4 : initYiRaw par3c 4 = (1 : ℚ) := by
    simp only [initYiRaw, hNc]
    norm_num [aP4, hC2]
    all_goals with_unfolding_all rfl
  have ir5 : initYiRaw par3c 5 = (0 : ℚ) := by
    simp only [initYiRaw, hNc]
    norm_num [aP5, hC2]
    all_goals with_unfolding_all rfl
  have rs0 : initRowSum par3c 0 = mkRat 13829950699722057743687467393263540596313876085275013973979771258357779362100056954241467496872287822982939277073413910720721228194825036518344500000000000000 20520746103071486026108166433345058334718672237707224075156619618403901874334165530482508993860281414829946060561692765970537222303951293513977029500963095623 := by
    simp only [initRowSum, hNc, sumComp]
    norm_num [ir0, ir1]
    all_goals with_unfolding_all rfl
  have rs1 : initRowSum par3c 1 = (1 : ℚ) := by
    simp only [initRowSum, hNc, sumComp]
    norm_num [ir2, ir3]
    all_goals with_unfolding_all rfl
  have rs2 : initRowSum par3c 2 = (1 : ℚ) := by
    simp only [initRowSum, hNc, sumComp]
    norm_num [ir4, ir5]
    all_goals with_unfolding_all rfl
  have aY0 : (initState par3c).Yi 0 = mkRat 1 2 := by
    show initYiRaw par3c 0 / initRowSum par3c (0 / par3c.Ncomp) = _
    simp only [hNc]
    norm_num [ir0, rs0]
    all_goals with_unfolding_all rfl
  have aY1 : (initState par3c).Yi 1 = mkRat 1 2 := by
    show initYiRaw par3c 1 / initRowSum par3c (1 / par3c.Ncomp) = _
    simp only [hNc]
    norm_num [ir1, rs0]
    all_goals with_unfolding_all rfl
  have aY2 : (initState par3c).Yi 2 = (1 : ℚ) := by
    show initYiRaw par3c 2 / initRowSum par3c (2 / par3c.Ncomp) = _
    simp only [hNc]
    norm_num [ir2, rs1]
    all_goals with_unfolding_all rfl
  have aY3 : (initState par3c).Yi 3 = (0 : ℚ) := by
    show initYiRaw par3c 3 / initRowSum par3c (3 / par3c.Ncomp) = _
    simp only [hNc]
    norm_num [ir3, rs1]
    all_goals with_unfolding_all rfl
  have aY4 : (initState par3c).Yi 4 = (1 : ℚ) := by
    show initYiRaw par3c 4 / initRowSum par3c (4 / par3c.Ncomp) = _
    simp only [hNc]
    norm_num [ir4, rs2]
    all_goals with_unfolding_all rfl
  have aY5 : (initState par3c).Yi 5 = (0 : ℚ) := by
    show initYiRaw par3c 5 / initRowSum par3c (5 / par3c.Ncomp) = _
    simp only [hNc]
    norm_num [ir5, rs2]
    all_goals with_unfolding_all rfl
  have aPt0 : (initState par3c).Pt 0 = mkRat 28387561627346786523176000 2553765770183086404149751 := by
    show sumComp par3c.Ncomp (fun j => max 0 (initP par3c (0 * par3c.Ncomp + j))) = _
    simp only [hNc, sumComp]
    norm_num [aP0, aP1]
    all_goals with_unfolding_all rfl
  have aPt1 : (initState par3c).Pt 1 = mkRat 26399880084319818095600802623194191993324081268462449778331 1914322091136319659153307778513819744464874394337500000000 := by
    show sumComp par3c.Ncomp (fun j => max 0 (initP par3c (1 * par3c.Ncomp + j))) = _
    simp only [hNc, sumComp]
    norm_num [aP2, aP3]
    all_goals with_unfolding_all rfl
  have aPt2 : (initState par3c).Pt 2 = mkRat 28387561627346786523176000 2553765770183086404149751 := by
    show sumComp par3c.Ncomp (fun j => max 0 (initP par3c (2 * par3c.Ncomp + j))) = _
    simp only [hNc, sumComp]
    norm_num [aP4, aP5]
    all_goals with_unfolding_all rfl
  have aPt3 : (initState par3c).Pt 3 = mkRat 28387561627346786523176000 2553765770183086404149751 := by with_unfolding_all rfl
  have aV0 : (initState par3c).V 0 = mkRat 13829950699722057743687467393263540596313876085275013973979771258357779362100056954241467496872287822982939277073413910720721228194825036518344500000000000000 20520746103071486026108166433345058334718672237707224075156619618403901874334165530482508993860281414829946060561692765970537222303951293513977029500963095623 := by
    show par3c.v_in * par3c.p_total / computeInitialPressure par3c 0 = _
    rw [hptot, hC0]
    with_unfolding_all rfl
  have aV1 : (initState par3c).V 1 = mkRat 25250193565090843226520811375407825025537679640829241270815462100000000000000 31325977112625912760878466915253885400232887069089902032072898473058579341439 := by
    show par3c.v_in * par3c.p_total / computeInitialPressure par3c 1 = _
    rw [hptot, hC1]
    with_unfolding_all rfl
  have aV2 : (initState par3c).V 2 = (1 : ℚ) := by
    show par3c.v_in * par3c.p_total / computeInitialPressure par3c 2 = _
    rw [hptot, hC2]
    with_unfolding_all rfl
  have aV3 : (initState par3c).V 3 = (1 : ℚ) := by
    show par3c.v_in * par3c.p_total / computeInitialPressure par3c 3 = _
    rw [hptot, hC3]
    with_unfolding_all rfl
  have aQe0 : (initState par3c).Qeq 0 = (0 : ℚ) := by with_unfolding_all rfl
  have aQe1 : (initState par3c).Qeq 1 = (1 : ℚ) := by with_unfolding_all rfl
  have aQe2 : (initState par3c).Qeq 2 = (0 : ℚ) := by with_unfolding_all rfl
  have aQe3 : (initState par3c).Qeq 3 = (1 : ℚ) := by with_unfolding_all rfl
  have aQe4 : (initState par3c).Qeq 4 = (0 : ℚ) := by with_unfolding_all rfl
  have aQe5 : (initState par3c).Qeq 5 = (1 : ℚ) := by with_unfolding_all rfl
  have aQ : ∀ n, (initState par3c).Q n = 0 := fun _ => rfl
  have eL0 : eqLoadings par3c (initState par3c) 0 = (0 : ℚ) := by with_unfolding_all rfl
  have eL1 : eqLoadings par3c (initState par3c) 1 = (1 : ℚ) := by with_unfolding_all rfl
  have eL2 : eqLoadings par3c (initState par3c) 2 = (0 : ℚ) := by with_unfolding_all rfl
  have eL3 : eqLoadings par3c (initState par3c) 3 = (1 : ℚ) := by with_unfolding_all rfl
  have eL4 : eqLoadings par3c (initState par3c) 4 = (0 : ℚ) := by with_unfolding_all rfl
  have eL5 : eqLoadings par3c (initState par3c) 5 = (1 : ℚ) := by with_unfolding_all rfl
  have b1p0 : (stage1Derivs par3c (initState par3c)).dpdt 0 = mkRat (-875225892276867523893541073992803574087786028415776887725273267075721953020660940339923547280111624890551888719497895874294066718985822962483751619650945222589628705000994381773108617968356236155552285015717899790793517089481128152387671518719295560241) 321094795168032968120674709590039566765059561166822297523549671995848693237037989028918190145166884338339316590552243600603155816649313548481734932855889525415316203971922585943734428338739475247259926321942669516021683530100642649037751500000000000000 := by
    simp only [stage1Derivs]
    rw [dpdt_interior _ _ _ _ _ _ 0 (by decide)]
    norm_num [hNc, hNg, sumComp, aP0, aP1, aP2, aP3, aP4, aP5, aY0, aY1, aY2, aY3, aY4, aY5, aV0, aV1, aV2, aV3, aQe0, aQe1, aQe2, aQe3, aQe4, aQe5, aQ, hdxl, hpre0, hpre1]
    all_goals with_unfolding_all rfl
  have b1p1 : (stage1Derivs par3c (initState par3c)).dpdt 1 = mkRat (-2238551566921291738768005510561467019833966905660414676315402715604635256532049747036970754838579124459508649102895485341259999975058095406579907165221841915237114369877958870046128060982390011) 729086808290922498325494886492287005799953741501409637016066342890089745688300390486945790700853193165703610416322775605186222757357546534668245121935744882135195310605780590706500000000000000 := by
    simp only [stage1Derivs]
    rw [dpdt_interior _ _ _ _ _ _ 1 (by decide)]
    norm_num [hNc, hNg, sumComp, aP0, aP1, aP2, aP3, aP4, aP5, aY0, aY1, aY2, aY3, aY4, aY5, aV0, aV1, aV2, aV3, aQe0, aQe1, aQe2, aQe3, aQe4, aQe5, aQ, hdxl, hpre0, hpre1]
    all_goals with_unfolding_all rfl
  have b1p2 : (stage1Derivs par3c (initState par3c)).dpdt 2 = mkRat (-1343409297528109753) 499500000000000000 := by
    simp only [stage1Derivs]
    rw [dpdt_outlet _ _ _ _ _ _ 2 (by decide)]
    norm_num [hNc, hNg, sumComp, aP0, aP1, aP2, aP3, aP4, aP5, aY0, aY1, aY2, aY3, aY4, aY5, aV0, aV1, aV2, aV3, aQe0, aQe1, aQe2, aQe3, aQe4, aQe5, aQ, hdxl, hpre0, hpre1]
    all_goals with_unfolding_all rfl
  have b1y2 : (stage1Derivs par3c (initState par3c)).dydt 2 = mkRat (-24475878768239660681077223061359786468691237679677394293612156589331621313570553499611175753282602711320727715073047715664537383750000000000000000000000000) 1230101861598792259064703266920322772959469546132532487569335764950477855493754146070466881462494151358172845169758797129201107456995574441305690329963829823 := by
    simp only [stage1Derivs]
    rw [dydt_interior _ _ _ _ _ _ 2 (by decide) (by decide)]
    norm_num [hNc, hNg, sumComp, aP0, aP1, aP2, aP3, aP4, aP5, aY0, aY1, aY2, aY3, aY4, aY5, aV0, aV1, aV2, aV3, aQe0, aQe1, aQe2, aQe3, aQe4, aQe5, aQ, hdxl, hpre0, hpre1]
    all_goals with_unfolding_all rfl
  have b1y3 : (stage1Derivs par3c (initState par3c)).dydt 3 = mkRat (-432304931073967508854056503433208823674824967159557088372048396154141741356646670379941195872717274664861090078671571522560762572740164811890248582957163254756796873737187060471) 2701500263349042453249727965830933338362672005378098032827068400251811319440404681455098099433588787198253989259569285895022709110868536580251558160834401424467405444774524948000 := by
    simp only [stage1Derivs]
    rw [dydt_interior _ _ _ _ _ _ 3 (by decide) (by decide)]
    norm_num [hNc, hNg, sumComp, aP0, aP1, aP2, aP3, aP4, aP5, aY0, aY1, aY2, aY3, aY4, aY5, aV0, aV1, aV2, aV3, aQe0, aQe1, aQe2, aQe3, aQe4, aQe5, aQ, hdxl, hpre0, hpre1]
    all_goals with_unfolding_all rfl
  have b1y4 : (stage1Derivs par3c (initState par3c)).dydt 4 = mkRat 95594951746894112104350802883305890364702512332890882749329 490172614903044742607472739406359746123919194215611012440000 := by
    simp only [stage1Derivs]
    rw [dydt_outlet _ _ _ _ _ _ 4 (by decide) (by decide)]
    norm_num [hNc, hNg, sumComp, aP0, aP1, aP2, aP3, aP4, aP5, aY0, aY1, aY2, aY3, aY4, aY5, aV0, aV1, aV2, aV3, aQe0, aQe1, aQe2, aQe3, aQe4, aQe5, aQ, hdxl, hpre0, hpre1]
    all_goals with_unfolding_all rfl
  have b1y5 : (stage1Derivs par3c (initState par3c)).dydt 5 = mkRat 388111522203818287432022305613147600091287409886973775208913327 3167985610118378171472096314783303039198889752215493973399720000 := by
    simp only [stage1Derivs]
    rw [dydt_outlet _ _ _ _ _ _ 5 (by decide) (by decide)]
    norm_num [hNc, hNg, sumComp, aP0, aP1, aP2, aP3, aP4, aP5, aY0, aY1, aY2, aY3, aY4, aY5, aV0, aV1, aV2, aV3, aQe0, aQe1, aQe2, aQe3, aQe4, aQe5, aQ, hdxl, hpre0, hpre1]
    all_goals with_unfolding_all rfl
  have b1q1 : (stage1Derivs par3c (initState par3c)).dqdt 1 = (1 : ℚ) := by
    simp only [stage1Derivs]
    rw [dqdt_eval]
    norm_num [hNc, hNg, sumComp, aP0, aP1, aP2, aP3, aP4, aP5, aY0, aY1, aY2, aY3, aY4, aY5, aV0, aV1, aV2, aV3, aQe0, aQe1, aQe2, aQe3, aQe4, aQe5, aQ, hdxl, hpre0, hpre1]
    all_goals with_unfolding_all rfl
  have b1q2 : (stage1Derivs par3c (initState par3c)).dqdt 2 = (0 : ℚ) := by
    simp only [stage1Derivs]
    rw [dqdt_eval]
    norm_num [hNc, hNg, sumComp, aP0, aP1, aP2, aP3, aP4, aP5, aY0, aY1, aY2, aY3, aY4, aY5, aV0, aV1, aV2, aV3, aQe0, aQe1, aQe2, aQe3, aQe4, aQe5, aQ, hdxl, hpre0, hpre1]
    all_goals with_unfolding_all rfl
  have b1q3 : (stage1Derivs par3c (initState par3c)).dqdt 3 = (1 : ℚ) := by
    simp only [stage1Derivs]
    rw [dqdt_eval]
    norm_num [hNc, hNg, sumComp, aP0, aP1, aP2, aP3, aP4, aP5, aY0, aY1, aY2, aY3, aY4, aY5, aV0, aV1, aV2, aV3, aQe0, aQe1, aQe2, aQe3, aQe4, aQe5, aQ, hdxl, hpre0, hpre1]
    all_goals with_unfolding_all rfl
  have b1q4 : (stage1Derivs par3c (initState par3c)).dqdt 4 = (0 : ℚ) := by
    simp only [stage1Derivs]
    rw [dqdt_eval]
    norm_num [hNc, hNg, sumComp, aP0, aP1, aP2, aP3, aP4, aP5, aY0, aY1, aY2, aY3, aY4, aY5, aV0, aV1, aV2, aV3, aQe0, aQe1, aQe2, aQe3, aQe4, aQe5, aQ, hdxl, hpre0, hpre1]
    all_goals with_unfolding_all rfl
  have b1q5 : (stage1Derivs par3c (initState par3c)).dqdt 5 = (1 : ℚ) := by
    simp only [stage1Derivs]
    rw [dqdt_eval]
    norm_num [hNc, hNg, sumComp, aP0, aP1, aP2, aP3, aP4, aP5, aY0, aY1, aY2, aY3, aY4, aY5, aV0, aV1, aV2, aV3, aQe0, aQe1, aQe2, aQe3, aQe4, aQe5, aQ, hdxl, hpre0, hpre1]
    all_goals with_unfolding_all rfl
  have cPt0 : stage1Pt par3c (initState par3c) 0 = mkRat 34817547471974713378063369675690586347290046968916619717590868205933952533367647990070695033291935795253736685867577868188726961864897387918520084221982044833610313785771798978168446881724113342757086542042377281452242396877894252045252328481280704439759 3210947951680329681206747095900395667650595611668222975235496719958486932370379890289181901451668843383393165905522436006031558166493135484817349328558895254153162039719225859437344283387394752472599263219426695160216835301006426490377515000000000000000 := by
    simp only [stage1Pt]
    norm_num [aPt0, b1p0, hdt]
    all_goals with_unfolding_all rfl
  have cPt1 : stage1Pt par3c (initState par3c) 1 = mkRat 45211467719565887985701153990342848019298629986712377465670177174274977389833576744811437822385160404769855897294847965460438827461894518399230609230793974165836870070021446289030691599783153603281390096885457165917220756376721352838842051 3353049810131852873304016760143410338895403845599224524189429941269681682169682998896074801230133436639627629433286910150338246158394317825539235356401314491781795617721318921573154707152685095399922827637513637158191396335000000000000000 := by
    simp only [stage1Pt]
    norm_num [aPt1, b1p1, hdt]
    all_goals with_unfolding_all rfl
  have cPt2 : stage1Pt par3c (initState par3c) 2 = mkRat 415510863811484103320311713515590900373509 38306486552746296062246265000000000000000 := by
    simp only [stage1Pt]
    norm_num [aPt2, b1p2, hdt]
    all_goals with_unfolding_all rfl
  have cY0 : stage1Yi par3c (initState par3c) 0 = mkRat 1 2 := by
    simp only [stage1Yi, stage1Derivs]
    rw [dydt_node0 _ _ _ _ _ _ 0 (by decide)]
    norm_num [aY0]
    all_goals with_unfolding_all rfl
  have cY1 : stage1Yi par3c (initState par3c) 1 = mkRat 1 2 := by
    simp only [stage1Yi, stage1Derivs]
    rw [dydt_node0 _ _ _ _ _ _ 1 (by decide)]
    norm_num [aY1]
    all_goals with_unfolding_all rfl
  have cY2 : stage1Yi par3c (initState par3c) 2 = mkRat 1227654273721968292996595544614186794312600422364564748139974549291544693362397090720505763887165891087040772398251492357634653718620574441305690329963829823 1230101861598792259064703266920322772959469546132532487569335764950477855493754146070466881462494151358172845169758797129201107456995574441305690329963829823 := by
    simp only [stage1Yi]
    norm_num [aY2, b1y2, hdt]
    all_goals with_unfolding_all rfl
  have cY3 : stage1Yi par3c (initState par3c) 3 = mkRat (-432304931073967508854056503433208823674824967159557088372048396154141741356646670379941195872717274664861090078671571522560762572740164811890248582957163254756796873737187060471) 27015002633490424532497279658309333383626720053780980328270684002518113194404046814550980994335887871982539892595692858950227091108685365802515581608344014244674054447745249480000 := by
    simp only [stage1Yi]
    norm_num [aY3, b1y3, hdt]
    all_goals with_unfolding_all rfl
  have cY4 : stage1Yi par3c (initState par3c) 4 = mkRat 4997321100777341538179078196946903351603894454489001007149329 4901726149030447426074727394063597461239191942156110124400000 := by
    simp only [stage1Yi]
    norm_num [aY4, b1y4, hdt]
    all_goals with_unfolding_all rfl
  have cY5 : stage1Yi par3c (initState par3c) 5 = mkRat 388111522203818287432022305613147600091287409886973775208913327 31679856101183781714720963147833030391988897522154939733997200000 := by
    simp only [stage1Yi]
    norm_num [aY5, b1y5, hdt]
    all_goals with_unfolding_all rfl
  have cQ1 : stage1Q par3c (initState par3c) 1 = mkRat 1 10 := by
    simp only [stage1Q]
    norm_num [aQ, b1q1, hdt]
    all_goals with_unfolding_all rfl
  have cQ2 : stage1Q par3c (initState par3c) 2 = (0 : ℚ) := by
    simp only [stage1Q]
    norm_num [aQ, b1q2, hdt]
    all_goals with_unfolding_all rfl
  have cQ3 : stage1Q par3c (initState par3c) 3 = mkRat 1 10 := by
    simp only [stage1Q]
    norm_num [aQ, b1q3, hdt]
    all_goals with_unfolding_all rfl
  have cQ4 : stage1Q par3c (initState par3c) 4 = (0 : ℚ) := by
    simp only [stage1Q]
    norm_num [aQ, b1q4, hdt]
    all_goals with_unfolding_all rfl
  have cQ5 : stage1Q par3c (initState par3c) 5 = mkRat 1 10 := by
    simp only [stage1Q]
    norm_num [aQ, b1q5, hdt]
    all_goals with_unfolding_all rfl
  have vV1 : stageV par3c (initState par3c) 1 = mkRat (-876227756895504438954425718897727575000) 1090388685525395539039893240289500646081 := by
    simp only [stageV]
    rw [computeVelocity_ge1 _ _ 1 (by decide)]
    norm_num [aPt1, aPt0, hlam, hturb, hpw, hdxl]
    all_goals with_unfolding_all rfl
  have vV2 : stageV par3c (initState par3c) 2 = mkRat 5007015753688596794025289822272729 6521388783711020230906358839370800 := by
    simp only [stageV]
    rw [computeVelocity_ge1 _ _ 2 (by decide)]
    norm_num [aPt2, aPt1, hlam, hturb, hpw, hdxl]
    all_goals with_unfolding_all rfl
  have vV3 : stageV par3c (initState par3c) 3 = mkRat (-2532609416880725897720372906559375) 130427775674220404618127176787416 := by
    simp only [stageV]
    rw [computeVelocity_ge1 _ _ 3 (by decide)]
    norm_num [aPt3, aPt2, hlam, hturb, hpw, hdxl]
    all_goals with_unfolding_all rfl
  have vV0 : stageV par3c (initState par3c) 0 = 1 := rfl
  have f2p0 : (stage2Derivs par3c (initState par3c)).dpdt 0 = mkRat (-30585502819684752108302232240658011482273239103351644307193213904636615349613008049740817158457227504118148450543377253233566119790489031997522511061350900675973626940461753194343626548458945197739939782292784044822985903245137553225263904879834941011829090928668937290283292586134631257428921074461524815552801373693841013811900327313468018038749243996611974546551990648003983448907993413654482290729401867002158361866104317620521899128810760806213842648741673) 19292345436587290262316289210601436111079826968853098288977321064461892686023521870779542462979008806157850096203905262101577246016552962710806721057754301085713370053081288023843675061636254486552335208632147470233182223793920234071883679267812035364168429696815062644411339904152272103203618138615773053659592294948973568791298075409663219496015734982269490565346234352644632201946985006337853467143588086424233376581392870678199815620260005755000000000000000 := by
    simp only [stage2Derivs]
    rw [dpdt_interior _ _ _ _ _ _ 0 (by decide)]
    norm_num [hNc, hNg, sumComp, eL0, eL1, eL2, eL3, eL4, eL5, cQ1, cQ2, cQ3, cQ4, cQ5, vV1, vV2, vV3, cPt0, cPt1, cPt2, cY0, cY1, cY2, cY3, cY4, cY5, hdxl, hpre0, hpre1, vV0]
    all_goals with_unfolding_all rfl
  have f2p1 : (stage2Derivs par3c (initState par3c)).dpdt 1 = mkRat (-59969112169217511768785353711458968916814605916217879513020506324654355534314841101456773897693151642801637650184942084852392214701164091435934178601396364034304118691318826124127429422143464229997898171558359592932976014704537751331697344777790884436911725228613743425297773733834370118241919040935693513966910052021062890517050329723210560016328173981017) 16792322693739769750578920226649100024708323447858938002901760449400468773748259432228351395345694977849204480366683150449679524080043534843248614920784243045401203121113410138413422540596381312067917191823135387060311409453217055760103749393269714972704893303922653482782833654287834672791382815551856235073488934788087368249111506230704395000000000000000 := by
    simp only [stage2Derivs]
    rw [dpdt_interior _ _ _ _ _ _ 1 (by decide)]
    norm_num [hNc, hNg, sumComp, eL0, eL1, eL2, eL3, eL4, eL5, cQ1, cQ2, cQ3, cQ4, cQ5, vV1, vV2, vV3, cPt0, cPt1, cPt2, cY0, cY1, cY2, cY3, cY4, cY5, hdxl, hpre0, hpre1, vV0]
    all_goals with_unfolding_all rfl
  have f2p2 : (stage2Derivs par3c (initState par3c)).dpdt 2 = mkRat 505284135903020448064082911846003035622818939663174713855878609173215981140837684531420008105213315364744742007861682237915435107235481134107220511 60230180617081988887754944566979211663858060299195847807491016603880229807890307813599812044576188641913237598520373765944380631715000000000000000 := by
    simp only [stage2Derivs]
    rw [dpdt_outlet _ _ _ _ _ _ 2 (by decide)]
    norm_num [hNc, hNg, sumComp, eL0, eL1, eL2, eL3, eL4, eL5, cQ1, cQ2, cQ3, cQ4, cQ5, vV1, vV2, vV3, cPt0, cPt1, cPt2, cY0, cY1, cY2, cY3, cY4, cY5, hdxl, hpre0, hpre1, vV0]
    all_goals with_unfolding_all rfl
  have f2y2 : (stage2Derivs par3c (initState par3c)).dydt 2 = mkRat 18021112778834521543088617248881085310105990733852085258249166775427250345031342366927797459010413524461755116607028591691718764779803980913744983692022287878414444663341984553266980863711466688601170516484401797296719183595512382979464624667767646216358537162585305471772160335318312317014027774630815732972248690603619482279250177846376327414049653386041551482449095620612938165252537815382804974825029455249285399597613476277891811601778484062338204185974633168690992733605741163544692710564174632434042200718388068100031244601437 1067272516447815191782275557519441831515186143136515181653333395294949945344972409501166356964046743073864759245084507254460820024106125780737171206452907869863315358130087677950229658818663652916902994228584417398712262252860280732793291195971392990851988823289984345604336392884221826203781741260644785772358529892817861545860807148284564349864807223954131616849751621474217577937435582602481826795375689393404976152310590449414462981139583172347882095984043728129693219781558149038266514010292528471612087060027121525040064378840000 := by
    simp only [stage2Derivs]
    rw [dydt_interior _ _ _ _ _ _ 2 (by decide) (by decide)]
    norm_num [hNc, hNg, sumComp, eL0, eL1, eL2, eL3, eL4, eL5, cQ1, cQ2, cQ3, cQ4, cQ5, vV1, vV2, vV3, cPt0, cPt1, cPt2, cY0, cY1, cY2, cY3, cY4, cY5, hdxl, hpre0, hpre1, vV0]
    all_goals with_unfolding_all rfl
  have f2y3 : (stage2Derivs par3c (initState par3c)).dydt 3 = mkRat (-96152471709606579087127756988713369207776849509272103585201347812770098307396204933509437493641156740386183861181053182216071840897565267040009437102614893273991887628487342707110569958726160577252696299225904991213123459270742789202005318910805843065055608839196059264967476289985579298470815042130516683694740938193961066420098220109494824408061510904209319536999148435791288992671321053110835190573806759684803142625631452747018636226526273181814797179675163740147652991464876371828805510297973298059821483855265056899968755398563) 1067272516447815191782275557519441831515186143136515181653333395294949945344972409501166356964046743073864759245084507254460820024106125780737171206452907869863315358130087677950229658818663652916902994228584417398712262252860280732793291195971392990851988823289984345604336392884221826203781741260644785772358529892817861545860807148284564349864807223954131616849751621474217577937435582602481826795375689393404976152310590449414462981139583172347882095984043728129693219781558149038266514010292528471612087060027121525040064378840000 := by
    simp only [stage2Derivs]
    rw [dydt_interior _ _ _ _ _ _ 3 (by decide) (by decide)]
    norm_num [hNc, hNg, sumComp, eL0, eL1, eL2, eL3, eL4, eL5, cQ1, cQ2, cQ3, cQ4, cQ5, vV1, vV2, vV3, cPt0, cPt1, cPt2, cY0, cY1, cY2, cY3, cY4, cY5, hdxl, hpre0, hpre1, vV0]
    all_goals with_unfolding_all rfl
  have f2y4 : (stage2Derivs par3c (initState par3c)).dydt 4 = mkRat 7736606975013949511936878208539427288092291631137385441379422623133556006503887597219459616787299545413600759755048628282469561411399203853012909123699780052296763478496724825976737532209077918751936066232604749889225708485622933143202501029430088972451817640728953301685769391028646328383 34796344313252443513182536644955550171067923076690437288314795733318759396976499253670529227373720797124430923197980178607745669830140294703973545719718241938963070687244945297211899078508528359187123729663469767065271402591862917657853334407135261947553219335879157302009743238953252682263 := by
    simp only [stage2Derivs]
    rw [dydt_outlet _ _ _ _ _ _ 4 (by decide) (by decide)]
    norm_num [hNc, hNg, sumComp, eL0, eL1, eL2, eL3, eL4, eL5, cQ1, cQ2, cQ3, cQ4, cQ5, vV1, vV2, vV3, cPt0, cPt1, cPt2, cY0, cY1, cY2, cY3, cY4, cY5, hdxl, hpre0, hpre1, vV0]
    all_goals with_unfolding_all rfl
  have f2y5 : (stage2Derivs par3c (initState par3c)).dydt 5 = mkRat 11273992009776327046589850901413704880686288957875975919079121643788569975212438164879997276995349964484217506404990295765180698243849810821367016618198338273483873764707403660890712339075976126555834823608563565004407128107027278306072945485425461385687383170459747896987819589526976776347497397764933507270027796080863 81043031970925438622327009210289591122982506953260740269498814421822077803393510711117079759602444053232193220438529813200806711405491895461670661357239512993146733075408247085724514506860122640002906457699842580230443076087059090613914553572951033050555658477379453412559678032297676996345711683446692017808355238300043 := by
    simp only [stage2Derivs]
    rw [dydt_outlet _ _ _ _ _ _ 5 (by decide) (by decide)]
    norm_num [hNc, hNg, sumComp, eL0, eL1, eL2, eL3, eL4, eL5, cQ1, cQ2, cQ3, cQ4, cQ5, vV1, vV2, vV3, cPt0, cPt1, cPt2, cY0, cY1, cY2, cY3, cY4, cY5, hdxl, hpre0, hpre1, vV0]
    all_goals with_unfolding_all rfl
  have f2q2 : (stage2Derivs par3c (initState par3c)).dqdt 2 = (0 : ℚ) := by
    simp only [stage2Derivs]
    rw [dqdt_eval]
    norm_num [hNc, hNg, sumComp, eL0, eL1, eL2, eL3, eL4, eL5, cQ1, cQ2, cQ3, cQ4, cQ5, vV1, vV2, vV3, cPt0, cPt1, cPt2, cY0, cY1, cY2, cY3, cY4, cY5, hdxl, hpre0, hpre1, vV0]
    all_goals with_unfolding_all rfl
  have f2q3 : (stage2Derivs par3c (initState par3c)).dqdt 3 = mkRat 9 10 := by
    simp only [stage2Derivs]
    rw [dqdt_eval]
    norm_num [hNc, hNg, sumComp, eL0, eL1, eL2, eL3, eL4, eL5, cQ1, cQ2, cQ3, cQ4, cQ5, vV1, vV2, vV3, cPt0, cPt1, cPt2, cY0, cY1, cY2, cY3, cY4, cY5, hdxl, hpre0, hpre1, vV0]
    all_goals with_unfolding_all rfl
  have f2q4 : (stage2Derivs par3c (initState par3c)).dqdt 4 = (0 : ℚ) := by
    simp only [stage2Derivs]
    rw [dqdt_eval]
    norm_num [hNc, hNg, sumComp, eL0, eL1, eL2, eL3, eL4, eL5, cQ1, cQ2, cQ3, cQ4, cQ5, vV1, vV2, vV3, cPt0, cPt1, cPt2, cY0, cY1, cY2, cY3, cY4, cY5, hdxl, hpre0, hpre1, vV0]
    all_goals with_unfolding_all rfl
  have f2q5 : (stage2Derivs par3c (initState par3c)).dqdt 5 = mkRat 9 10 := by
    simp only [stage2Derivs]
    rw [dqdt_eval]
    norm_num [hNc, hNg, sumComp, eL0, eL1, eL2, eL3, eL4, eL5, cQ1, cQ2, cQ3, cQ4, cQ5, vV1, vV2, vV3, cPt0, cPt1, cPt2, cY0, cY1, cY2, cY3, cY4, cY5, hdxl, hpre0, hpre1, vV0]
    all_goals with_unfolding_all rfl
  have gPt0 : stage2Pt par3c (initState par3c) 0 = mkRat 76454522450397127413719582575566893102959174806602201542548190336527858218401743253326691321820268602942180161309896035192481924025279015354911456631889764407537593084577271671967483997514171925004330101465058826202088303515757122496907858381289162209979135882084839456848690159724409617399017135418952249581558942405836331223781898973472853333198021651289667526084243144708951402552025609773122907929830532390843986904261622174428556624506873999583686989673908213 6945244357171424494433864115816516999988737708787115384031835583206281366968467873480635286672443170216826034633405894356567808565959066575890419580791548390856813219109263688583723022189051615158840675107573089283945600565811284265878124536412332731100634690853422551988082365494817957153302529901678299317453226181630484764867307147478759018565664593617016603524644366952067592700914602281627248171691711112724015569301433444151933623293602071800000000000000000 := by
    simp only [stage2Pt]
    norm_num [aPt0, cPt0, f2p0, hdt]
    all_goals with_unfolding_all rfl
  have gPt1 : stage2Pt par3c (initState par3c) 1 = mkRat 182232644929547585519431345296222018760937895763959847384169030485538235102210717627937011667168816901116394077523998856558995502889011958677561914538245187195234271161110708917610740974446020757855067912485955558614966490965835603553949096544070075219821821013613949031085211749331316693217512162554263269050725810405372720249132704126343592923928801653453452088934433677927283905916298053 13375186394481943019396328455344304388632058109064114583131829611887564180444680551549850125952207526327192969751973990419689156334509757813422369563275609519243026269908465444631975827035859130155187693825540489248608876484044899874494183216667620729031901993672410192587480490893133184569759925609370357625730137453572508371755236926770079512800149650086033231981533895800000000000000000 := by
    simp only [stage2Pt]
    norm_num [aPt1, cPt1, f2p1, hdt]
    all_goals with_unfolding_all rfl
  have gY0 : stage2Yi par3c (initState par3c) 0 = mkRat 1 2 := by
    simp only [stage2Yi, stage2Derivs]
    rw [dydt_node0 _ _ _ _ _ _ 0 (by decide)]
    norm_num [aY0, cY0]
    all_goals with_unfolding_all rfl
  have gY1 : stage2Yi par3c (initState par3c) 1 = mkRat 1 2 := by
    simp only [stage2Yi, stage2Derivs]
    rw [dydt_node0 _ _ _ _ _ _ 1 (by decide)]
    norm_num [aY1, cY1]
    all_goals with_unfolding_all rfl
  have gY2 : stage2Yi par3c (initState par3c) 2 = mkRat 42687685779152254653515780027528118642185691612698781869452044720947145505764577289964255563468169072535424028175119642788651379567979569932844684924290222109165305987991174925835805730505674437952147107387411401876542486371988690811593067628808899710897979350989870741164860655416608232609952575925337686459640388892398422380672671915597603744134206936117332917767074215592476160586795897594710680592293192667482998735453593074232388060312829825323526823658119910112133166378575701553278024116780439959967524601803249069702606398201437 42690900657912607671291022300777673260607445725460607266133335811797997813798896380046654278561869722954590369803380290178432800964245031229486848258116314794532614325203507118009186352746546116676119769143376695948490490114411229311731647838855719634079552931599373824173455715368873048151269650425791430894341195712714461834432285931382573994592288958165264673990064858968703117497423304099273071815027575736199046092423617976578519245583326893915283839361749125187728791262325961530660560411701138864483482401084861001602575153600000 := by
    simp only [stage2Yi]
    norm_num [aY2, cY2, f2y2, hdt]
    all_goals with_unfolding_all rfl
  have gY3 : stage2Yi par3c (initState par3c) 3 = mkRat (-13080143779868662120684960279385594734438303175634176874087705155124834044121148426013748641469927190635883681278698534752287346924386130625661983019857670291187320753829341295547178619799552051470500218958507793219593744566225624092156449577289985892049677016467501946201956977171996632949916996911336272783340371263708088205168186983804502230137806057105702877524088762071431797507825449475381190248049230617075227175931526248113062150891105509122119040680774859211337619834513215844402551671781556986423349113698048344239014701941157) 2091854132237717775893260092738105989769764840547569756040533454778101892876145922622286059649531616424774928120365634218743207247248006530244855564647699424932098101934971848782450131284580759717129868688025458101476034015606150236274850744103930262069898093648369317384499330053074779359412212870863780113822718589923008629887182010637746125735022158950097969025513178089466452757373741900864380518936351211073753258528757280852347443033583017801848908128725707134198710771853972115002367460173355804359690637653158189078526182526400000 := by
    simp only [stage2Yi]
    norm_num [aY3, cY3, f2y3, hdt]
    all_goals with_unfolding_all rfl
  have gY4 : stage2Yi par3c (initState par3c) 4 = mkRat 168765176187685955641878364713993771041604306517610291619408808169053342630619664720730202757986579011062395216769183550017942038522067505123585688974814316348875637540407997439735963655423592025838338517325095299976525374026070860355714534855735027577371661893892148997511003807766786357479592571 167022452703611728863276175895786640821126030768114098983911019519930045105487196417618540291393859826197268431350304857317179215184673414579073019454647561307022739298775737426617115576840936124098193902384654881913302732440942004757696005154249257348255452812219955049646767546975612874862400000 := by
    simp only [stage2Yi]
    norm_num [aY4, cY4, f2y4, hdt]
    all_goals with_unfolding_all rfl
  have gY5 : stage2Yi par3c (initState par3c) 5 = mkRat 2544313790186678337618618799049689998891484337634632316994508692109866299274365550990016970686981578890001509880464030899557687723722443885752705293746212316250167857363529106745492195524279695446768331324770709971243425531175488960288864544021470547556272054852375627502270731388278217560453686618416063069950305221585740831 389006553460442105387169644209390037390316033375651553293594309224745973456288851413361982846091731455514527458104943103363872214746361098216019174514749662367104318761959586011477669632928588672013950996959244385106126765217883634946789857150164958642667160691421376380286454555028849582459416080544121685480105143840206400000 := by
    simp only [stage2Yi]
    norm_num [aY5, cY5, f2y5, hdt]
    all_goals with_unfolding_all rfl
  have gQ2 : stage2Q par3c (initState par3c) 2 = (0 : ℚ) := by
    simp only [stage2Q]
    norm_num [aQ, cQ2, f2q2, hdt]
    all_goals with_unfolding_all rfl
  have gQ3 : stage2Q par3c (initState par3c) 3 = mkRat 19 400 := by
    simp only [stage2Q]
    norm_num [aQ, cQ3, f2q3, hdt]
    all_goals with_unfolding_all rfl
  have h3y2 : (stage3Derivs par3c (initState par3c)).dydt 2 = mkRat 6215105329279538463488095907078480057549931151605395598536507853717703565883997108705417980339919389651408189322507662061719592804914613284216701260182312985251440682823851629740631397327938436949159307000142185388207461136449785586696913606362008437617081047426093609504670471980968922098114208023565810413684598239000615729195050190142449243723257606116779230931442136455926665251914555071778734843698420688574378879992349300270499816625073870367080775832254341365617727662463461284879454540155747001775156240548633029032866664813594071525181048777600266434565475701403475918684335709747178602806113707113655106789407718526554952817631235145240604517331362264450968621138865753713255855011659893225327832083986376599974773839450474718282601404356368933031417844494690040393149866898875667232896266109529168994553627006415847681076086817174022300186645927744073726341341083495838597775547514529848987643049294594148095315036006126192226539834445868199097883344139167399959912768877390725509034444001521452479624296298782727979456029556402407 333103565767547182717903896874644596349656471900252511715533017300112862024585009072315437148044632711158128857498095697091823113168063728091473210488993430155860357592382355327425893351862540906789674086103656594657360915392793773539981296674053976690077146894449160684135505915583656311260700711956945330792682379328981163025875064098994412121329031531413855050191576310097631580850165529228904226260829547557517091014909287454060635145496012447071947030908525589872908894869101694137056507855092733062227610065199568376875126713470914772036918490487875129025071008294126766060797246988348714346419650831370458382271582430338682657465663661594125497169666264722644851556901008353491175531056830404840079415375228814932744950290140048027316616699496028336691753283832407790852796048378903688384146839423443481619758366643669694969217201383895752198230893575471053722824746829653079450436319951945617053929116570689047807775207528949157471963936441036266728348335348126502258506659869761880157126111153295089641966168913822630471836473233600000 := by
    simp only [stage3Derivs]
    rw [dydt_interior _ _ _ _ _ _ 2 (by decide) (by decide)]
    norm_num [hNc, hNg, sumComp, eL2, eL3, eL4, eL5, gQ2, gQ3, vV1, gPt0, gPt1, gY0, gY1, gY2, gY3, gY4, gY5, hdxl, hpre0, hpre1]
    all_goals with_unfolding_all rfl
  have h3y3 : (stage3Derivs par3c (initState par3c)).dydt 3 = mkRat (-30369223327788490322724114115754928182896317349883807929712003341927360291537178496546312298440408612724705879530580046101071154798578942015937003994466094527724803106687432247130045975837243979119776585106092823770836460437262774747235870328156389205051453725008451893014304077374182807672530059028006202730749024861465030152141522685391526061166616278470143784116296326699310954998472214578119152015770098377766011470841178724246070950577606108574011482896639210001398571945444167742952860435368045477571627382100600003414502431342820473478859219531873817945350916480913992827992957430052067819174239694844691622439589782200155570309020793967987609216362432085494023840596263277104389614510056038154765346566027702910683298872329423369319420662638088582270667405936903272284512574563917371820421645158190729337629938125889794103001902366662209366780691124735478630003677394776540778838381550109372138882483286321543730066016682490024922484478760250153105013617617564075182362075166371754677834353573082830224760597930273728270543970443597593) 333103565767547182717903896874644596349656471900252511715533017300112862024585009072315437148044632711158128857498095697091823113168063728091473210488993430155860357592382355327425893351862540906789674086103656594657360915392793773539981296674053976690077146894449160684135505915583656311260700711956945330792682379328981163025875064098994412121329031531413855050191576310097631580850165529228904226260829547557517091014909287454060635145496012447071947030908525589872908894869101694137056507855092733062227610065199568376875126713470914772036918490487875129025071008294126766060797246988348714346419650831370458382271582430338682657465663661594125497169666264722644851556901008353491175531056830404840079415375228814932744950290140048027316616699496028336691753283832407790852796048378903688384146839423443481619758366643669694969217201383895752198230893575471053722824746829653079450436319951945617053929116570689047807775207528949157471963936441036266728348335348126502258506659869761880157126111153295089641966168913822630471836473233600000 := by
    simp only [stage3Derivs]
    rw [dydt_interior _ _ _ _ _ _ 3 (by decide) (by decide)]
    norm_num [hNc, hNg, sumComp, eL2, eL3, eL4, eL5, gQ2, gQ3, vV1, gPt0, gPt1, gY0, gY1, gY2, gY3, gY4, gY5, hdxl, hpre0, hpre1]
    all_goals with_unfolding_all rfl
  have k3Y2 : stage3Yi par3c (initState par3c) 2 = mkRat 1667505915014422558754681053945544322728081116080839420933323656360253107986657955574603807893696571987263402179472784603137390256230201732964712933236189760616482308346330368042129984659648398568491172848754325648147094820729561969482780734677280288603723806812704723115950814552657701762164967559201439035229367363977755690888490057665287615519466543563572394102058231700047926671335333391920600595190950104663317091008436413943686639698515975343099654747964455766741730855001241585473792684080839155242018159714594133970919941594002855231136762363067177334246640861460272687030242859960068146213872951754262196155312148605671468480437165409117450438297690468946631483753424932296884779516147260394069753030776735857953884096572459808091892149126636791728259765552859887175391378977865890078694117123804202308133001678047037190398517191602189539309025002342121158318945487887382101078438902879349504723053591859400524130270153910725665598400380837861110106890488360099939502439338546025430765977371812510267596031541121763943586743905955959259 1665517828837735913589519484373222981748282359501262558577665086500564310122925045361577185740223163555790644287490478485459115565840318640457366052444967150779301787961911776637129466759312704533948370430518282973286804576963968867699906483370269883450385734472245803420677529577918281556303503559784726653963411896644905815129375320494972060606645157657069275250957881550488157904250827646144521131304147737787585455074546437270303175727480062235359735154542627949364544474345508470685282539275463665311138050325997841884375633567354573860184592452439375645125355041470633830303986234941743571732098254156852291911357912151693413287328318307970627485848331323613224257784505041767455877655284152024200397076876144074663724751450700240136583083497480141683458766419162038954263980241894518441920734197117217408098791833218348474846086006919478760991154467877355268614123734148265397252181599759728085269645582853445239038876037644745787359819682205181333641741676740632511292533299348809400785630555766475448209830844569113152359182366168000000 := by
    simp only [stage3Yi]
    norm_num [aY2, gY2, h3y2, hdt]
    all_goals with_unfolding_all rfl
  have k3Y3 : stage3Yi par3c (initState par3c) 3 = mkRat (-836231367019259461008091869172670302609033405610900052681134819948552621571588048033982599078425294854191623445796259123566328745236206730602914651409334984065348457948290261006309394541597034534796736982210505660427538778667004003701065837356412118944814542889583211438420911033292113252326409890925235189338570038918344538549154896555430594151519258526520759236147961244876434733972685054179806077773846966771488721098432746760393234053244093439464448129677231559228007217566099168058968396004140910326734620180640490942681670283007232304173261076673827165093692276128761638579635710007905855134248737165857133900646812048228690903549466161926336169971389824030827542003486010711815612362037297287013894457854366420295390942619708892869360585902751497486843804020969344048869112087821485062505618711504266142797134165281547366098604451972019590623823862734137724608055363323686837817158150115572799270949758061953030071961062547112212751320700102852713605080780981742822975721358147943033629867663686580056828614984644138376889006269463438209) 81610373613049059765886454734287926105665835615561865370305589238527651196023327222717282101270935014233741570087033445787496662726175613382410936569803390388185787610133677055219343871206322522163470151095395865691053424271234474517295417685143224289068900989140044367613198949317995796258871674429451606044207182935600384941339390704253630969725612725196394487296936195973919737308290554661081535433903239151591687298652775426244855610646523049532627022572588769518862679242929915063578844424497719600245764465973894252334406044800374119149045030169529406611142397032061057684895325512145435014872814453685762303656537695432977251079087597090560746806568234857047988631440747046605338005108923449185819456766931059658522512821084311766692571091376526942489479554538939908758935031852831403654115975658743652996840799827699075267458214339054459288566568925990408162092062973265004465356898388226676178212633559818816712904925844592543580631164428053885348445342160290993053334131668091660638495897232557296962281711383886544465599935942232000000 := by
    simp only [stage3Yi]
    norm_num [aY3, gY3, h3y3, hdt]
    all_goals with_unfolding_all rfl
  have hsum : sumComp par3c.Ncomp
      (fun j => (commitState par3c (initState par3c)).Yi (1 * par3c.Ncomp + j)) = mkRat 27702698084609084685128400080618633766844208086351702321691755473576765526031616039677010163131825253562670436465696374593042247030437394577129741135205831993712948196914770173235383999263621235384217969771281532309086521966024618484803107067807911456238339718504664848813154805553659114715111239065861703709185178976657306382545310466313064910344568091502695670155666232065108613334786306818793062094360439516044764436441355994660748101445652517270258758571243184730578950484240065187814706350648052743161091329437862880877429161325973208218577307871313773361339675150399423541052495082521016859906978530900672241891983989783740948578719293040761321659663261428834261619053110855713082996553311604897348103278553328872036058510122821665812753342472328132399797705063034796110379669184087897142990344451868834350387942470174150863037898764870678682339140029881883602627543 27955780543660635206732650683780985942432169583436766357418019507261225237845992437248298930116831129631927348443931058271197019748706914291509680561680425539248206010034414553363212870326052955783526175541350230528425222110999112884453835887749228189092145374819139591572879053265085217826491621069916348357898142228563630777173613381801208600261233591528217639495376256248751888911217823630929642547477864394922351554193679595433084141861822831699605705060570989670146453343967424388871640392333465947419948798761592480106239232014528493602439715562819423900794107245700285112625340430668906806103917268802333502226511862589998579856626971247371367421055892019512742084765177294806764997624414513266846988755681787993331330519200717672204855676075990295265963599709526924348185122925787920878385479620770156713603338060035731496450485141782605433942224631901397668000000 := by
    simp only [commitState]
    norm_num [hNc, sumComp, k3Y2, k3Y3]
    all_goals with_unfolding_all rfl
  have hcD1 : c3D 1 = mkRat 16 625 := by
    simp only [c3D]
    norm_num [aPt1, aPt0, hlam, hturb, hpw, hdxl]
    all_goals with_unfolding_all rfl
  have hcD2 : c3D 2 = mkRat 962435968012286061503582210645411120805653817365666237670319536640000000000 31308913814066951389994871404373959636940789273077543708675927947437935628729 := by
    simp only [c3D]
    norm_num [aPt2, aPt1, hlam, hturb, hpw, hdxl]
    all_goals with_unfolding_all rfl
  refine ⟨?_, rfl, ?_,
    ⟨by with_unfolding_all rfl, by with_unfolding_all rfl, by with_unfolding_all rfl,
      by with_unfolding_all rfl, by with_unfolding_all rfl⟩,
    ⟨?_, ?_⟩, ⟨?_, ?_⟩, hpw, ?_⟩
  · simp only [hNc, sumComp]
    norm_num [aY2, aY3]
  · rw [aPt0]
    exact of_decide_eq_true (by with_unfolding_all rfl)
  · rw [hcD1]
    with_unfolding_all rfl
  · rw [hcD1]
    exact of_decide_eq_true (by with_unfolding_all rfl)
  · rw [hcD2]
    with_unfolding_all rfl
  · rw [hcD2]
    exact of_decide_eq_true (by with_unfolding_all rfl)
  · rw [hsum]
    exact of_decide_eq_true (by with_unfolding_all rfl)

end Ruptura



namespace Ruptura

theorem sumComp_congr (m : ℕ) (f g : ℕ → ℚ) (h : ∀ j, j < m → f j = g j) :
    sumComp m f = sumComp m g := by
  induction m with
  | zero => rfl
  | succ k ih =>
    simp only [sumComp]
    rw [ih (fun j hj => h j (Nat.lt_succ_of_lt hj)), h k (Nat.lt_succ_self k)]

theorem sumComp_div (m : ℕ) (f : ℕ → ℚ) (c : ℚ) :
    sumComp m (fun j => f j / c) = sumComp m f / c := by
  induction m with
  | zero => simp [sumComp]
  | succ k ih =>
    simp only [sumComp]
    rw [ih, add_div]

/-- Claim C3 (amended): mole-fraction closure holds exactly after
`initialize` at every node whose normalizing sum is nonzero, and
`computeStep` leaves the inlet-node (`i = 0`) mole fractions unchanged
(the inlet `dy/dt` is pinned to zero in all three stages); closure at
nodes `i ≥ 1` is not preserved in general (see the counterexample). -/
theorem C3_closure_amended (par : BTParams) :
    (∀ i, i ≤ par.Ngrid → initRowSum par i ≠ 0 →
      sumComp par.Ncomp (fun j => (initState par).Yi (i * par.Ncomp + j)) = 1) ∧
    (∀ s step N a s' N' a', computeStep par s step N a = Except.ok (s', N', a') →
      ∀ n, n < par.Ncomp → s'.Yi n = s.Yi n) := by
  constructor
  · intro i _ hne
    have hNc : 0 < par.Ncomp := by
      rcases Nat.eq_zero_or_pos par.Ncomp with h0 | h0
      · exact absurd (by simp [initRowSum, h0, sumComp]) hne
      · exact h0
    have h1 : ∀ j, j < par.Ncomp → (initState par).Yi (i * par.Ncomp + j) =
        initYiRaw par (i * par.Ncomp + j) / initRowSum par i := by
      intro j hj
      show initYiRaw par (i * par.Ncomp + j) /
        initRowSum par ((i * par.Ncomp + j) / par.Ncomp) = _
      rw [Nat.mul_comm i par.Ncomp, Nat.mul_add_div hNc, Nat.div_eq_of_lt hj, Nat.add_zero]
    rw [sumComp_congr _ _ _ h1, sumComp_div]
    exact div_self hne
  · intro s step N a s' N' a' hok n hn
    have hdiv : n / par.Ncomp = 0 := Nat.div_eq_of_lt hn
    simp only [computeStep] at hok
    by_cases hc : s.Pt 0 + par.dptdx * par.L < 0
    · rw [if_pos hc] at hok
      exact absurd hok (by simp)
    · rw [if_neg hc] at hok
      have h := Except.ok.inj hok
      have hs : pulseApply par ((step : ℚ) * par.dt) (commitState par s) = s' :=
        congrArg Prod.fst h
    -- the pulse enforcement rewrites only `P`, so `Yi` is the committed one
      have hYi : s'.Yi = (commitState par s).Yi := by
        rw [← hs]
        simp only [pulseApply]
        split <;> rfl
      rw [hYi]
      show stage3Yi par s n = s.Yi n
      simp only [stage3Yi, stage2Yi, stage1Yi, stage3Derivs, stage2Derivs, stage1Derivs]
      rw [dydt_node0 _ _ _ _ _ _ n hdiv, dydt_node0 _ _ _ _ _ _ n hdiv,
        dydt_node0 _ _ _ _ _ _ n hdiv]
      ring

/-- Witness for `C3_closure_amended`: the amended closure statement at node
1 of `par3w`, and inlet-row preservation through a full step from `s3w`. -/
theorem C3_closure_amended_witness :
    sumComp par3w.Ncomp (fun j => (initState par3w).Yi (1 * par3w.Ncomp + j)) = 1 ∧
    (pulseApply par3w (((0 : ℕ) : ℚ) * par3w.dt) (commitState par3w s3w)).Yi 0 = s3w.Yi 0 :=
  ⟨(C3_closure_amended par3w).1 1 (by decide)
      (of_decide_eq_true (by with_unfolding_all rfl)),
    (C3_closure_amended par3w).2 s3w 0 5 false
      (pulseApply par3w (((0 : ℕ) : ℚ) * par3w.dt) (commitState par3w s3w)) 5 false
      (by with_unfolding_all rfl) 0 (by decide)⟩

end Ruptura

namespace Ruptura

/-- Claim C5 (counterexample): concrete inputs on which the inlet
total-pressure derivative computed by the code differs from the claim's
convection-free (velocity-divergence plus sorption-sink) value: the code
gives `-3`, the claim's form gives `-1`. -/
theorem C5_inlet_has_convection :
    (computeFirstDerivatives par5c zArr zArr v5c p5c zArr).dpdt 0 ≠
      specInletDpdt par5c zArr zArr v5c p5c :=
  of_decide_eq_true (by with_unfolding_all rfl)

/-- Claim C5 (amended): at the inlet node `i = 0` the code's total-pressure
derivative keeps the convective term: it equals the claim's
divergence-plus-sink form minus exactly `v[0]*(p[1]-p[0])/dx` — the same
three-term stencil as the interior nodes. -/
theorem C5_inlet_dpdt_amended (par : BTParams) (q_eq q v p y : ℕ → ℚ)
    (h : 0 < par.Ngrid) :
    (computeFirstDerivatives par q_eq q v p y).dpdt 0 =
      specInletDpdt par q_eq q v p - v 0 * (p 1 - p 0) * (1 / dx par) := by
  rw [dpdt_interior _ _ _ _ _ _ 0 h]
  simp only [specInletDpdt, Nat.zero_mul, Nat.zero_add]
  ring

/-- Witness for `C5_inlet_dpdt_amended` at the C5 instance. -/
theorem C5_inlet_dpdt_amended_witness :
    (computeFirstDerivatives par5c zArr zArr v5c p5c zArr).dpdt 0 =
      specInletDpdt par5c zArr zArr v5c p5c - v5c 0 * (p5c 1 - p5c 0) * (1 / dx par5c) :=
  C5_inlet_dpdt_amended par5c zArr zArr v5c p5c zArr (by decide)

/-- Claim C9: the outlet total-pressure derivative depends on the velocity
read at index `Ngrid + 1 = 3`, one past the allocated range `0..Ngrid` of
the velocity vector (`V(Ngrid + 1)` in the constructor): two velocity
vectors agreeing at every allocated index `0..2` but differing at index `3`
produce different `dpdt[Ngrid]`. -/
theorem C9_outlet_reads_past_end :
    par9c.Ngrid = 2 ∧
    v9a 0 = v9b 0 ∧ v9a 1 = v9b 1 ∧ v9a 2 = v9b 2 ∧ v9a 3 ≠ v9b 3 ∧
    (computeFirstDerivatives par9c zArr zArr v9a p9c zArr).dpdt 2 ≠
      (computeFirstDerivatives par9c zArr zArr v9b p9c zArr).dpdt 2 :=
  of_decide_eq_true (by with_unfolding_all rfl)

/-- Claim C10: in stage 1 of `computeStep` the pressure argument handed to
`computeFirstDerivatives` is the flattened partial-pressure array `P`
(source line 483), not the node-indexed total-pressure vector: on `s10c`
the stage-1 `dpdt[0]` is `-1`, while the same call with the total-pressure
vector `Pt` gives `-100`; stages 2 and 3 do pass the node-indexed stage
total-pressure buffer (the final conjunct, definitional). -/
theorem C10_stage1_pressure_mismatch :
    ((stage1Derivs par10c s10c).dpdt 0 = -1 ∧
      (computeFirstDerivatives par10c s10c.Qeq s10c.Q s10c.V s10c.Pt s10c.Yi).dpdt 0 = -100 ∧
      ((-1 : ℚ) ≠ -100)) ∧
    (stage1Derivs par10c s10c =
      computeFirstDerivatives par10c s10c.Qeq s10c.Q s10c.V s10c.P s10c.Yi) ∧
    (stage2Derivs par10c s10c =
      computeFirstDerivatives par10c (eqLoadings par10c s10c) (stage1Q par10c s10c)
        (stageV par10c s10c) (stage1Pt par10c s10c) (stage1Yi par10c s10c)) ∧
    (stage3Derivs par10c s10c =
      computeFirstDerivatives par10c (eqLoadings par10c s10c) (stage2Q par10c s10c)
        (stageV par10c s10c) (stage2Pt par10c s10c) (stage2Yi par10c s10c)) :=
  ⟨of_decide_eq_true (by with_unfolding_all rfl), rfl, rfl, rfl⟩

end Ruptura

namespace Ruptura

/-- Claim C7 (counterexample): with a strictly positive entrance velocity
the Ergun backward-Euler initial profile exceeds `p_total` away from the
outlet, so the carrier partial pressure at node 1 set by `initialize` is
`pt_init[1] ≠ p_total`. -/
theorem C7_init_not_ptotal :
    (initState par7c).P (1 * par7c.Ncomp + par7c.carrier) ≠ par7c.p_total :=
  of_decide_eq_true (by with_unfolding_all rfl)

/-- Claim C7 (amended): after `initialize`, loadings are zero at every
index; at the inlet node `P[0,j] = p_total * Yi0[j]`; at every node
`i ≥ 1` the carrier partial pressure equals the Ergun backward-Euler
initial pressure `pt_init[i]` (not `p_total`) and the other components are
zero; and `Qeq` at node `i` is the single black-box equilibrium call on the
normalized node-`i` mole fractions and `pt_init[i]`. -/
theorem C7_init_state_amended (par : BTParams) (hNc : 0 < par.Ncomp) :
    (∀ n, (initState par).Q n = 0) ∧
    (∀ j, j < par.Ncomp → (initState par).P j = par.p_total * par.Yi0 j) ∧
    (∀ i, 1 ≤ i → ∀ j, j < par.Ncomp →
      (initState par).P (i * par.Ncomp + j) =
        (if j = par.carrier then computeInitialPressure par i else 0)) ∧
    (∀ i j, j < par.Ncomp →
      (initState par).Qeq (i * par.Ncomp + j) =
        par.oracle (fun k => (initState par).Yi (i * par.Ncomp + k))
          (computeInitialPressure par i) j) := by
  have hidx : ∀ i j, j < par.Ncomp → (i * par.Ncomp + j) / par.Ncomp = i := by
    intro i j hj
    rw [Nat.mul_comm i par.Ncomp, Nat.mul_add_div hNc, Nat.div_eq_of_lt hj, Nat.add_zero]
  have hmod : ∀ i j, j < par.Ncomp → (i * par.Ncomp + j) % par.Ncomp = j := by
    intro i j hj
    rw [Nat.mul_comm i par.Ncomp, Nat.mul_add_mod, Nat.mod_eq_of_lt hj]
  refine ⟨fun _ => rfl, ?_, ?_, ?_⟩
  · intro j hj
    show initP par j = _
    have h0 : j / par.Ncomp = 0 := Nat.div_eq_of_lt hj
    simp only [initP, h0, Nat.mod_eq_of_lt hj, eq_self_iff_true, if_true]
  · intro i hi j hj
    show initP par (i * par.Ncomp + j) = _
    simp only [initP, hidx i j hj, hmod i j hj]
    rw [if_neg (by omega)]
  · intro i j hj
    show par.oracle _ (computeInitialPressure par ((i * par.Ncomp + j) / par.Ncomp))
        ((i * par.Ncomp + j) % par.Ncomp) = _
    rw [hidx i j hj, hmod i j hj]
    with_unfolding_all rfl

/-- Witness for `C7_init_state_amended` at the C7 instance. -/
theorem C7_init_state_witness :
    (initState par7c).Q 3 = 0 ∧
    (initState par7c).P 0 = par7c.p_total * par7c.Yi0 0 ∧
    (initState par7c).P (1 * par7c.Ncomp + 0) =
      (if 0 = par7c.carrier then computeInitialPressure par7c 1 else 0) ∧
    (initState par7c).Qeq (1 * par7c.Ncomp + 0) =
      par7c.oracle (fun k => (initState par7c).Yi (1 * par7c.Ncomp + k))
        (computeInitialPressure par7c 1) 0 :=
  ⟨(C7_init_state_amended par7c (by decide)).1 3,
    (C7_init_state_amended par7c (by decide)).2.1 0 (by decide),
    (C7_init_state_amended par7c (by decide)).2.2.1 1 (by decide) 0 (by decide),
    (C7_init_state_amended par7c (by decide)).2.2.2 1 0 (by decide)⟩

/-- Claim C8 (counterexample): a committed state whose actual outlet total
pressure `Pt[Ngrid]` is negative, while the quantity the code checks,
`Pt[0] + dptdx*L`, is not: the step completes without the
`InvalidPressureGradient` abort. -/
theorem C8_outlet_negative_no_abort :
    s8c.Pt par8c.Ngrid < 0 ∧ stepOk (computeStep par8c s8c 0 9 false) = true :=
  of_decide_eq_true (by with_unfolding_all rfl)

/-- Claim C8 (amended): `computeStep` aborts with the pressure-gradient
exception exactly when `Pt[0] + dptdx * L < 0` on the pre-step committed
state (the code's estimate of the outlet pressure from the inlet value and
the prescribed gradient, checked identically by all three
`computeEquilibriumLoadings` calls); the actual outlet `Pt[Ngrid]` is not
examined. -/
theorem C8_abort_iff_estimate (par : BTParams) (s : BTState) (step N : ℕ) (a : Bool) :
    (stepOk (computeStep par s step N a) = true ↔
      ¬(s.Pt 0 + par.dptdx * par.L < 0)) ∧
    (s.Pt 0 + par.dptdx * par.L < 0 →
      computeStep par s step N a = Except.error errMsg) := by
  simp only [computeStep, stepOk]
  by_cases hc : s.Pt 0 + par.dptdx * par.L < 0
  · rw [if_pos hc]
    simp [hc]
  · rw [if_neg hc]
    simp [hc]

/-- Witness for `C8_abort_iff_estimate`: a step from `s8c` completes. -/
theorem C8_abort_iff_estimate_witness :
    stepOk (computeStep par8c s8c 0 9 false) = true :=
  (C8_abort_iff_estimate par8c s8c 0 9 false).1.mpr
    (of_decide_eq_true (by with_unfolding_all rfl))

end Ruptura

namespace Ruptura

/-- Claim C4 (counterexample): with the outlet row of `P` exactly matched
(`tolerance = 0 < 0.01`) at step 5, the driver sets `Nsteps` to the
truncation `⌊1.1 * 5⌋ = 5`, not the ceiling `⌈1.1 * 5⌉ = 6`. -/
theorem C4_floor_not_ceil :
    ((computeStep par4c s4c 5 999 true).toOption.map (fun x => (x.2.1, x.2.2))) =
      some (5, false) ∧
    ⌈(11 : ℚ) / 10 * (5 : ℚ)⌉₊ = 6 ∧ (5 : ℕ) ≠ 6 := by
  refine ⟨of_decide_eq_true (by with_unfolding_all rfl), ?_, by decide⟩
  rw [show (11 : ℚ) / 10 * (5 : ℚ) = 11 / 2 by norm_num]
  rw [Nat.ceil_eq_iff (by norm_num)]
  norm_num

/-- Claim C4 (amended): when `autoSteps` is enabled and the step does not
abort, the driver computes the outlet tolerance at the start of the step;
if it is below `0.01` it sets `Nsteps` to the truncation (floor, as by
`static_cast<size_t>`) of `1.1 * step` and clears `autoSteps` (disabling
all further auto-checking); otherwise both are left unchanged. -/
theorem C4_autostop_amended (par : BTParams) (s : BTState) (step N : ℕ)
    (h2 : ¬(s.Pt 0 + par.dptdx * par.L < 0)) :
    (toleranceOf par s.P < 1 / 100 →
      computeStep par s step N true =
        Except.ok (pulseApply par ((step : ℚ) * par.dt) (commitState par s),
          ((11 : ℚ) / 10 * (step : ℚ)).floor.toNat, false)) ∧
    (¬(toleranceOf par s.P < 1 / 100) →
      computeStep par s step N true =
        Except.ok (pulseApply par ((step : ℚ) * par.dt) (commitState par s), N, true)) := by
  constructor
  · intro h1
    simp only [computeStep, autoRule, if_pos h1, if_neg h2, if_true]
  · intro h1
    simp only [computeStep, autoRule, if_neg h1, if_neg h2, if_true]

/-- Witness for `C4_autostop_amended` at step 5 from `s4w`. -/
theorem C4_autostop_amended_witness :
    computeStep par4c s4w 5 999 true =
      Except.ok (pulseApply par4c (((5 : ℕ) : ℚ) * par4c.dt) (commitState par4c s4w),
        ((11 : ℚ) / 10 * ((5 : ℕ) : ℚ)).floor.toNat, false) :=
  (C4_autostop_amended par4c s4w 5 999
      (of_decide_eq_true (by with_unfolding_all rfl))).1
    (of_decide_eq_true (by with_unfolding_all rfl))

end Ruptura

namespace Ruptura

/-- Claim C6: in a pulse run, after the commit of a step whose time
`t = step * dt` exceeds `tpulse`, the inlet partial pressures are pure
carrier (`P[0,carrier] = p_total`, other components zero), and the pulse
enforcement modifies only the inlet row of `P`: the inlet mole fractions
`Yi[0,.]`, the rows `i ≥ 1` of `P` (flattened indices `n ≥ Ncomp`) and
every other array equal those of the committed (pre-pulse) state. -/
theorem C6_pulse_frame (par : BTParams) (s : BTState) (step N : ℕ) (a : Bool)
    (s' : BTState) (N' : ℕ) (a' : Bool)
    (hp : par.pulse = true) (ht : par.tpulse < (step : ℚ) * par.dt)
    (hok : computeStep par s step N a = Except.ok (s', N', a')) :
    (∀ j, j < par.Ncomp → s'.P j = (if j = par.carrier then par.p_total else 0)) ∧
    (∀ n, par.Ncomp ≤ n → s'.P n = (commitState par s).P n) ∧
    s'.Yi = (commitState par s).Yi ∧
    s'.Q = (commitState par s).Q ∧
    s'.Qeq = (commitState par s).Qeq ∧
    s'.V = (commitState par s).V ∧
    s'.Pt = (commitState par s).Pt := by
  simp only [computeStep] at hok
  by_cases hc : s.Pt 0 + par.dptdx * par.L < 0
  · rw [if_pos hc] at hok
    exact absurd hok (by simp)
  · rw [if_neg hc] at hok
    have h := Except.ok.inj hok
    have hs : pulseApply par ((step : ℚ) * par.dt) (commitState par s) = s' :=
      congrArg Prod.fst h
    rw [← hs]
    simp only [pulseApply, if_pos (And.intro hp ht)]
    refine ⟨?_, ?_, trivial, trivial, trivial, trivial, trivial⟩
    · intro j hj
      simp only [if_pos hj]
    · intro n hn
      simp only [if_neg (Nat.not_lt.mpr hn)]

/-- Witness for `C6_pulse_frame`: step 5 of the pulse configuration
`par6w` (`tpulse = 2`, `dt = 1`) from `s6w`; the carrier is component 1. -/
theorem C6_pulse_frame_witness :
    (pulseApply par6w (((5 : ℕ) : ℚ) * par6w.dt) (commitState par6w s6w)).P 1 =
      par6w.p_total ∧
    (pulseApply par6w (((5 : ℕ) : ℚ) * par6w.dt) (commitState par6w s6w)).P 0 = 0 ∧
    (pulseApply par6w (((5 : ℕ) : ℚ) * par6w.dt) (commitState par6w s6w)).Yi =
      (commitState par6w s6w).Yi := by
  have h := C6_pulse_frame par6w s6w 5 7 false
    (pulseApply par6w (((5 : ℕ) : ℚ) * par6w.dt) (commitState par6w s6w)) 7 false
    rfl (of_decide_eq_true (by with_unfolding_all rfl)) (by with_unfolding_all rfl)
  refine ⟨?_, ?_, h.2.2.1⟩
  · have := h.1 1 (by decide)
    simpa using this
  · have := h.1 0 (by decide)
    simpa using this

end Ruptura

namespace Ruptura

set_option maxRecDepth 2000 in
/-- Claim C2: on `pt2v` (with `T = T_mu0`, so the Sutherland factor and
`pow(T/T_mu0, 3/2)` are exactly `1`), the code's velocity at node 1 is
exactly `1` (its discriminant is the certified perfect square whose
nonnegative root the abstract `sq` returns), the code's quadratic
coefficient is the laminar prefactor scaled by `Pt/T` (here `252000`) and
its linear coefficient the turbulent prefactor, yet substituting `V = 1`
into the claim's quadratic `a*V^2 + b*V + c` (turbulent `a`, Sutherland
laminar `b`, same `c`) gives `-126000 ≠ 0` — the code's root does not
satisfy the claim's quadratic at all. -/
theorem C2_velocity_quadratic_mismatch :
    computeVelocity par2c pt2v 1 = 1 ∧
    (par2c.sq ((c2b + 504000) ^ 2) = c2b + 504000 ∧ (0 : ℚ) ≤ c2b + 504000 ∧
      par2c.pw 1 = 1) ∧
    (laminar_prefactor par2c = 126000 ∧ turbulent_prefactor par2c = c2b) ∧
    (claimErgunA par2c * 1 ^ 2 + claimErgunB par2c * 1 + claimErgunC par2c pt2v 1 =
      -126000 ∧ (-126000 : ℚ) ≠ 0) :=
  ⟨by with_unfolding_all rfl,
    ⟨by with_unfolding_all rfl, of_decide_eq_true (by with_unfolding_all rfl),
      by with_unfolding_all rfl⟩,
    ⟨by with_unfolding_all rfl, by with_unfolding_all rfl⟩,
    ⟨by with_unfolding_all rfl, by norm_num⟩⟩

/-- Claim C2 (supporting): whenever the abstract `sq` returns a genuine
square root of the code's discriminant and the code's quadratic coefficient
is nonzero, the velocity `computeVelocity` produces at a node `i ≥ 1` is a
root of the quadratic the CODE builds — quadratic coefficient
`laminar_prefactor * Pt[i] / T`, linear coefficient
`turbulent_prefactor * pow(T/T_mu0,3/2) * (T_mu0+S)/(T+S)`, constant
`(Pt[i]-Pt[i-1])/dx` — the laminar/turbulent roles being swapped relative
to the claim. -/
theorem C2_code_quadratic_root (par : BTParams) (Pt : ℕ → ℚ) (i : ℕ) (hi : ¬ i = 0)
    (ha : laminar_prefactor par * Pt i / par.T ≠ 0)
    (hsq : par.sq ((turbulent_prefactor par * par.pw (par.T / T_mu0) * (T_mu0 + S) /
          (par.T + S)) *
        (turbulent_prefactor par * par.pw (par.T / T_mu0) * (T_mu0 + S) / (par.T + S)) -
        4 * (laminar_prefactor par * Pt i / par.T) * ((Pt i - Pt (i - 1)) / dx par)) *
      par.sq ((turbulent_prefactor par * par.pw (par.T / T_mu0) * (T_mu0 + S) /
          (par.T + S)) *
        (turbulent_prefactor par * par.pw (par.T / T_mu0) * (T_mu0 + S) / (par.T + S)) -
        4 * (laminar_prefactor par * Pt i / par.T) * ((Pt i - Pt (i - 1)) / dx par)) =
      (turbulent_prefactor par * par.pw (par.T / T_mu0) * (T_mu0 + S) / (par.T + S)) *
        (turbulent_prefactor par * par.pw (par.T / T_mu0) * (T_mu0 + S) / (par.T + S)) -
        4 * (laminar_prefactor par * Pt i / par.T) * ((Pt i - Pt (i - 1)) / dx par)) :
    (laminar_prefactor par * Pt i / par.T) * computeVelocity par Pt i ^ 2 +
      (turbulent_prefactor par * par.pw (par.T / T_mu0) * (T_mu0 + S) / (par.T + S)) *
        computeVelocity par Pt i +
      (Pt i - Pt (i - 1)) / dx par = 0 := by
  rw [computeVelocity_ge1 par Pt i hi]
  set A := laminar_prefactor par * Pt i / par.T with hA
  set B := turbulent_prefactor par * par.pw (par.T / T_mu0) * (T_mu0 + S) / (par.T + S)
    with hB
  set C := (Pt i - Pt (i - 1)) / dx par with hC
  set s := par.sq (B * B - 4 * A * C) with hs
  have hsq' : s * s = B * B - 4 * A * C := hsq
  set v := 1 / (2 * A) * (-1 * B + s) with hv
  have h2A : (2 : ℚ) * A ≠ 0 := mul_ne_zero two_ne_zero ha
  have h4A : (4 : ℚ) * A ≠ 0 := mul_ne_zero (by norm_num) ha
  have hv2 : 2 * A * v = -1 * B + s := by
    rw [hv, ← mul_assoc, mul_one_div, div_self h2A, one_mul]
  apply mul_left_cancel₀ h4A
  rw [mul_zero]
  linear_combination (2 * A * v + B + s) * hv2 + hsq'

end Ruptura

namespace Ruptura

/-- Claim C1: for a non-pulse configuration, a completed `computeStep`
advances `(Q, Yi, Pt)` by the three-stage Shu-Osher SSP-RK3 combination:
stage 1 is the explicit Euler predictor `U1 = U + dt*F(U)` (with `F` the
stage-1 `computeFirstDerivatives` call on the committed arrays), stage 2 is
`U2 = 3/4*U + 1/4*U1 + 1/4*dt*F(U1)`, and the committed state is
`1/3*U + 2/3*U2 + 2/3*dt*F(U2)`; after every stage each partial pressure is
reconstructed as `Pnew[n] = Yinew[n] * Ptnew[n / Ncomp]`
(i.e. `P[i,j] = Yi[i,j] * Pt[i]`), and the equilibrium loadings and the
velocity are recomputed after each stage (all three recomputations read the
committed `Yi` and `Pt`, unchanged until the commit, and the committed
`Qeq` and `V` are exactly those recomputed values). -/
theorem C1_ssprk3_structure (par : BTParams) (s : BTState) (step N : ℕ) (a : Bool)
    (s' : BTState) (N' : ℕ) (a' : Bool)
    (hpulse : par.pulse = false)
    (hok : computeStep par s step N a = Except.ok (s', N', a')) :
    (stage1Derivs par s = computeFirstDerivatives par s.Qeq s.Q s.V s.P s.Yi ∧
      (∀ i, stage1Pt par s i = s.Pt i + par.dt * (stage1Derivs par s).dpdt i) ∧
      (∀ n, stage1Q par s n = s.Q n + par.dt * (stage1Derivs par s).dqdt n) ∧
      (∀ n, stage1Yi par s n = s.Yi n + par.dt * (stage1Derivs par s).dydt n) ∧
      (∀ n, stage1P par s n = stage1Yi par s n * stage1Pt par s (n / par.Ncomp))) ∧
    (stage2Derivs par s =
        computeFirstDerivatives par (eqLoadings par s) (stage1Q par s) (stageV par s)
          (stage1Pt par s) (stage1Yi par s) ∧
      (∀ i, stage2Pt par s i =
        3 / 4 * s.Pt i + 1 / 4 * stage1Pt par s i +
          1 / 4 * par.dt * (stage2Derivs par s).dpdt i) ∧
      (∀ n, stage2Q par s n =
        3 / 4 * s.Q n + 1 / 4 * stage1Q par s n +
          1 / 4 * par.dt * (stage2Derivs par s).dqdt n) ∧
      (∀ n, stage2Yi par s n =
        3 / 4 * s.Yi n + 1 / 4 * stage1Yi par s n +
          1 / 4 * par.dt * (stage2Derivs par s).dydt n) ∧
      (∀ n, stage2P par s n = stage2Yi par s n * stage2Pt par s (n / par.Ncomp))) ∧
    (stage3Derivs par s =
        computeFirstDerivatives par (eqLoadings par s) (stage2Q par s) (stageV par s)
          (stage2Pt par s) (stage2Yi par s) ∧
      (∀ i, s'.Pt i =
        1 / 3 * s.Pt i + 2 / 3 * stage2Pt par s i +
          2 / 3 * par.dt * (stage3Derivs par s).dpdt i) ∧
      (∀ n, s'.Q n =
        1 / 3 * s.Q n + 2 / 3 * stage2Q par s n +
          2 / 3 * par.dt * (stage3Derivs par s).dqdt n) ∧
      (∀ n, s'.Yi n =
        1 / 3 * s.Yi n + 2 / 3 * stage2Yi par s n +
          2 / 3 * par.dt * (stage3Derivs par s).dydt n) ∧
      (∀ n, s'.P n = s'.Yi n * s'.Pt (n / par.Ncomp))) ∧
    (s'.Qeq = eqLoadings par s ∧ s'.V = computeVelocity par s.Pt) := by
  simp only [computeStep] at hok
  by_cases hc : s.Pt 0 + par.dptdx * par.L < 0
  · rw [if_pos hc] at hok
    exact absurd hok (by simp)
  · rw [if_neg hc] at hok
    have h := Except.ok.inj hok
    have hs : pulseApply par ((step : ℚ) * par.dt) (commitState par s) = s' :=
      congrArg Prod.fst h
    have hnp : ¬(par.pulse = true ∧ par.tpulse < (step : ℚ) * par.dt) := by
      rw [hpulse]
      simp
    rw [← hs]
    simp only [pulseApply, if_neg hnp]
    exact ⟨⟨rfl, fun _ => rfl, fun _ => rfl, fun _ => rfl, fun _ => rfl⟩,
      ⟨rfl, fun _ => rfl, fun _ => rfl, fun _ => rfl, fun _ => rfl⟩,
      ⟨rfl, fun _ => rfl, fun _ => rfl, fun _ => rfl, fun _ => rfl⟩, rfl, rfl⟩

/-- Witness for `C1_ssprk3_structure`: the single-component instance
`par1w`/`s1w` at step 0. -/
theorem C1_ssprk3_structure_witness :
    (pulseApply par1w (((0 : ℕ) : ℚ) * par1w.dt) (commitState par1w s1w)).Pt 1 =
      1 / 3 * s1w.Pt 1 + 2 / 3 * stage2Pt par1w s1w 1 +
        2 / 3 * par1w.dt * (stage3Derivs par1w s1w).dpdt 1 ∧
    (pulseApply par1w (((0 : ℕ) : ℚ) * par1w.dt) (commitState par1w s1w)).Qeq =
      eqLoadings par1w s1w :=
  ⟨((C1_ssprk3_structure par1w s1w 0 3 false
        (pulseApply par1w (((0 : ℕ) : ℚ) * par1w.dt) (commitState par1w s1w)) 3 false
        rfl (by with_unfolding_all rfl)).2.2.1).2.1 1,
    ((C1_ssprk3_structure par1w s1w 0 3 false
        (pulseApply par1w (((0 : ℕ) : ℚ) * par1w.dt) (commitState par1w s1w)) 3 false
        rfl (by with_unfolding_all rfl)).2.2.2).1⟩

end Ruptura
